import Mathlib

/-!
Verification development for the GeoJSON land-plot validator
(`geojsonValidatorWithSteps.ts` and `geojsonValidator.ts`).

The two validator engines are shallowly embedded below.  JavaScript runtime
values are modelled by `JVal`; JavaScript numbers are modelled by exact
rationals `QJ` (an integer numerator over a positive integer denominator,
kept unnormalised so that every operation is a plain kernel-reducible
integer computation).  Operations that can raise a JavaScript `TypeError`
(property access on `null`/`undefined`, calling array methods on
non-arrays, the `in` operator on primitives, `toString` on `null`) are
embedded in the `Except JErr` monad; the source's mutation of the shared
`results` accumulator is modelled by explicit state passing.

Documented idealisations (each is local and none is relied on by a theorem
in a way that the float/string semantics could overturn):
* JavaScript IEEE-754 doubles are modelled as exact rationals.
* `===` on two objects/arrays compares references; the model returns
  `false` for any object/array pair, matching runs in which a document
  does not alias the same object in two compared places.
* `ToNumber` of a string is modelled as NaN; numeric strings are not used
  in any input a theorem touches.
* The angle computation `Math.acos(...) * 180/π < 5` of `calculateAngle`
  is embedded as the equivalent squared-cosine comparison
  `dot > 0 ∧ dot² > cos²(5°)·|v1|²·|v2|²`, with the irrational constant
  `cos²(5°)` replaced by a rational approximation `cosSq5`; no theorem
  depends on the exact threshold (the spike checks proved about are
  either skipped, or applied where `dot ≤ 0` or a magnitude vanishes).
* `Number.prototype.toString` (inspected by the plain engine\x27s precision
  rule) is modelled through the exact decimal expansion of the rational
  value: positional rendering for zero and magnitudes in `[1e-6, 1e21)`,
  exponential rendering `d.dddde-k` below `1e-6`.  Magnitudes of `1e21`
  and beyond are modelled positionally and non-terminating expansions
  are flagged; neither case occurs for a double in any theorem\x27s input.
-/

/-- Exact rational numbers used to model JavaScript numbers: an integer
numerator over a positive integer denominator, not necessarily reduced. -/
structure QJ : Type where
  n : ℤ
  d : ℤ
  hd : 0 < d

/-- Integer literal as a `QJ`. -/
def QJ.int (k : ℤ) : QJ := ⟨k, 1, one_pos⟩

/-- Decimal literal `m / 10^k` as a `QJ` (e.g. `QJ.dec 15 1` is `1.5`). -/
def QJ.dec (m : ℤ) (k : ℕ) : QJ := ⟨m, 10 ^ k, pow_pos (by norm_num) k⟩

/-- Subtraction of model numbers. -/
def QJ.sub (a b : QJ) : QJ := ⟨a.n * b.d - b.n * a.d, a.d * b.d, mul_pos a.hd b.hd⟩

/-- Addition of model numbers. -/
def QJ.add (a b : QJ) : QJ := ⟨a.n * b.d + b.n * a.d, a.d * b.d, mul_pos a.hd b.hd⟩

/-- Multiplication of model numbers. -/
def QJ.mul (a b : QJ) : QJ := ⟨a.n * b.n, a.d * b.d, mul_pos a.hd b.hd⟩

/-- Strict order on model numbers (cross-multiplied; denominators are positive). -/
def QJ.ltB (a b : QJ) : Bool := a.n * b.d < b.n * a.d

/-- Value equality of model numbers (JavaScript `===` on numbers). -/
def QJ.eqB (a b : QJ) : Bool := a.n * b.d == b.n * a.d

/-- Interpretation of a model number as a Mathlib rational. -/
def QJ.toQ (a : QJ) : ℚ := (a.n : ℚ) / (a.d : ℚ)

/-- JavaScript `Math.round`: round half toward positive infinity,
`⌊x + 1/2⌋`, computed on the unnormalised fraction with integer floor
division (the divisor `2 * a.d` is positive). -/
def jsRoundInt (a : QJ) : ℤ := (2 * a.n + a.d) / (2 * a.d)

/-- Rounding a coordinate to six decimal places:
`Math.round(val * 1e6) / 1e6` (identical helper `roundCoord` body in the
steps engine). -/
def round6 (q : QJ) : QJ := ⟨jsRoundInt (q.mul (QJ.int 1000000)), 1000000, by norm_num⟩

/-- JavaScript runtime values (the validator receives `any`). -/
inductive JVal : Type where
  | null : JVal
  | undef : JVal
  | bool : Bool → JVal
  | num : QJ → JVal
  | str : String → JVal
  | arr : List JVal → JVal
  | obj : List (String × JVal) → JVal

/-- JavaScript runtime exceptions thrown by the validator on malformed
input (always `TypeError`s). -/
inductive JErr : Type where
  | typeError : String → JErr

/-- JavaScript `typeof`. -/
def typeofStr : JVal → String
  | .null => "object"
  | .undef => "undefined"
  | .bool _ => "boolean"
  | .num _ => "number"
  | .str _ => "string"
  | .arr _ => "object"
  | .obj _ => "object"

/-- JavaScript truthiness. -/
def truthy : JVal → Bool
  | .null => false
  | .undef => false
  | .bool b => b
  | .num q => !(q.eqB (QJ.int 0))
  | .str s => !(s == "")
  | .arr _ => true
  | .obj _ => true

/-- JavaScript strict equality `===`.  Object and array operands compare
by reference; the model returns `false` for them (no document considered
aliases one object in two compared positions). -/
def jsEq : JVal → JVal → Bool
  | .null, .null => true
  | .undef, .undef => true
  | .bool a, .bool b => a == b
  | .num a, .num b => a.eqB b
  | .str a, .str b => a == b
  | _, _ => false

/-- JavaScript property read `v.k`.  Throws a `TypeError` on `null` and
`undefined`; yields `undefined` for absent keys.  Documents considered
have no duplicate keys, so first-match lookup is used. -/
def getProp : JVal → String → Except JErr JVal
  | .null, k => throw (.typeError (s!"Cannot read properties of null (reading {k})"))
  | .undef, k => throw (.typeError (s!"Cannot read properties of undefined (reading {k})"))
  | .obj fields, k => pure (((fields.find? (fun f => f.1 == k)).map (fun f => f.2)).getD .undef)
  | .arr xs, k => pure (if k == "length" then .num (QJ.int xs.length) else .undef)
  | .str s, k => pure (if k == "length" then .num (QJ.int s.length) else .undef)
  | .bool _, _ => pure .undef
  | .num _, _ => pure JVal.undef

/-- Optional-chaining property read `v?.k` (never throws). -/
def optGet (v : JVal) (k : String) : JVal :=
  match v with
  | .null => .undef
  | .undef => .undef
  | .obj fields => (((fields.find? (fun f => f.1 == k)).map (fun f => f.2)).getD .undef)
  | .arr xs => if k == "length" then .num (QJ.int xs.length) else .undef
  | .str s => if k == "length" then .num (QJ.int s.length) else .undef
  | .bool _ => .undef
  | .num _ => JVal.undef

/-- JavaScript `k in v`.  Throws a `TypeError` when the right operand is
not an object. -/
def hasProp (k : String) : JVal → Except JErr Bool
  | .obj fields => pure (fields.any (fun f => f.1 == k))
  | .arr xs => pure (k == "length" || (k.toNat?.elim false (fun i => i < xs.length)))
  | v => throw (.typeError (s!"Cannot use in operator to search for {k} in {typeofStr v}"))

/-- JavaScript indexed read `v[i]` with a nonnegative integer index.
Throws on `null`/`undefined`; out-of-range array reads give `undefined`.
Plain objects are modelled as having no numeric keys (no document
considered stores one). -/
def getIdxNat : JVal → ℕ → Except JErr JVal
  | .null, i => throw (.typeError (s!"Cannot read properties of null (reading {i})"))
  | .undef, i => throw (.typeError (s!"Cannot read properties of undefined (reading {i})"))
  | .arr xs, i => pure (xs.getD i .undef)
  | .str s, i => pure (if i < s.data.length then .str (String.mk [s.data.getD i ' ']) else .undef)
  | .num _, _ => pure .undef
  | .bool _, _ => pure .undef
  | .obj _, _ => pure JVal.undef

/-- JavaScript `ToNumber` coercion, `none` standing for NaN.  Strings
coerce to NaN in the model (no numeric string reaches an arithmetic site
in any input considered); a singleton array coerces through its element
as JavaScript does through its string rendering. -/
def toNum : JVal → Option QJ
  | .null => some (QJ.int 0)
  | .undef => none
  | .bool b => some (QJ.int (if b then 1 else 0))
  | .num q => some q
  | .str _ => none
  | .arr [] => some (QJ.int 0)
  | .arr [x] => toNum x
  | .arr (_ :: _ :: _) => none
  | .obj _ => none

/-- NaN-aware subtraction (JavaScript `-` after `ToNumber`). -/
def jsSub : Option QJ → Option QJ → Option QJ
  | some a, some b => some (a.sub b)
  | _, _ => none

/-- NaN-aware addition of already-numeric operands. -/
def jsAdd : Option QJ → Option QJ → Option QJ
  | some a, some b => some (a.add b)
  | _, _ => none

/-- NaN-aware multiplication. -/
def jsMul : Option QJ → Option QJ → Option QJ
  | some a, some b => some (a.mul b)
  | _, _ => none

/-- NaN-aware `>` (any comparison with NaN is false). -/
def jsGtB : Option QJ → Option QJ → Bool
  | some a, some b => b.ltB a
  | _, _ => false

/-- NaN-aware `<`. -/
def jsLtB : Option QJ → Option QJ → Bool
  | some a, some b => a.ltB b
  | _, _ => false

/-- Rendering of a value interpolated into a template literal.  Only the
integer case is needed faithfully (interpolated values in the inspected
documents are integers or absent); other renderings are simplified and
no theorem depends on them. -/
def jsDisplay : JVal → String
  | .null => "null"
  | .undef => "undefined"
  | .bool b => if b then "true" else "false"
  | .num q => if q.d = 1 then toString q.n else "number"
  | .str s => s
  | .arr _ => "array"
  | .obj _ => "object"

/-- Orientation test from `segmentsIntersect` (identical arrow function
`ccw` in both source files):
`(c[1] - a[1]) * (b[0] - a[0]) > (b[1] - a[1]) * (c[0] - a[0])`.
Indexing throws on `null`/`undefined` points; arithmetic coerces via
`ToNumber`, and a NaN comparison is false. -/
def ccwJS (a b c : JVal) : Except JErr Bool := do
  let a0 ← getIdxNat a 0
  let a1 ← getIdxNat a 1
  let b0 ← getIdxNat b 0
  let b1 ← getIdxNat b 1
  let c0 ← getIdxNat c 0
  let c1 ← getIdxNat c 1
  pure (jsGtB (jsMul (jsSub (toNum c1) (toNum a1)) (jsSub (toNum b0) (toNum a0)))
              (jsMul (jsSub (toNum b1) (toNum a1)) (jsSub (toNum c0) (toNum a0))))

/-- Proper-crossing test of two segments (identical `segmentsIntersect`
in both source files):
`ccw(p1,p3,p4) !== ccw(p2,p3,p4) && ccw(p1,p2,p3) !== ccw(p1,p2,p4)`.
The `&&` short-circuit cannot skip a throw: the first conjunct already
indexes all four points, so eager evaluation of the second is
equivalent. -/
def segmentsIntersect (p1 p2 p3 p4 : JVal) : Except JErr Bool := do
  let x1 ← ccwJS p1 p3 p4
  let x2 ← ccwJS p2 p3 p4
  let y1 ← ccwJS p1 p2 p3
  let y2 ← ccwJS p1 p2 p4
  pure ((x1 != x2) && (y1 != y2))

/-- Rational stand-in for the irrational threshold `cos²(5°)` used by the
squared-cosine embedding of `calculateAngle(...) < 5`
(`cos²(5°) = 0.99240387650...`).  No theorem depends on its value. -/
def cosSq5 : QJ := ⟨992403876, 1000000000, by norm_num⟩

/-- Spike test at a vertex, embedding `calculateAngle(p1, p2, p3) < 5`
from the identical `calculateAngle` of both source files.  The source
computes `acos(clamp(dot/(mag1*mag2))) * 180/π` and compares with 5;
with zero magnitudes mapped to 180° (never a spike), this is equivalent
to `mag1² ≠ 0 ∧ mag2² ≠ 0 ∧ dot > 0 ∧ dot² > cos²(5°)·mag1²·mag2²`
(a NaN anywhere yields a false comparison, hence no spike). -/
def spikeCheck (p1 p2 p3 : JVal) : Except JErr Bool := do
  let p10 ← getIdxNat p1 0
  let p11 ← getIdxNat p1 1
  let p20 ← getIdxNat p2 0
  let p21 ← getIdxNat p2 1
  let p30 ← getIdxNat p3 0
  let p31 ← getIdxNat p3 1
  let v10 := jsSub (toNum p10) (toNum p20)
  let v11 := jsSub (toNum p11) (toNum p21)
  let v20 := jsSub (toNum p30) (toNum p20)
  let v21 := jsSub (toNum p31) (toNum p21)
  let dot := jsAdd (jsMul v10 v20) (jsMul v11 v21)
  let m1sq := jsAdd (jsMul v10 v10) (jsMul v11 v11)
  let m2sq := jsAdd (jsMul v20 v20) (jsMul v21 v21)
  pure (match dot, m1sq, m2sq with
    | some dq, some aq, some bq =>
        if aq.eqB (QJ.int 0) || bq.eqB (QJ.int 0) then false
        else (QJ.int 0).ltB dq && (cosSq5.mul (aq.mul bq)).ltB (dq.mul dq)
    | _, _, _ => false)

/-- The pairs `(i, j)` of edge indices scanned by the self-intersection
double loop, in loop order: `i` ranges below `length - 1`, `j` from
`i + 2` below `length - 1`, and the seam pair `(0, length - 2)` is
skipped by `continue`. -/
def siPairs (n : ℕ) : List (ℕ × ℕ) :=
  ((List.range (n - 1)).flatMap (fun i =>
    ((List.range (n - 1)).filter (fun j => i + 2 ≤ j)).map (fun j => (i, j)))).filter
    (fun p => !(p.1 == 0 && p.2 == n - 2))

/-- Scan of `segmentsIntersect` over the pairs of `siPairs`, stopping at
the first hit (the plain engine returns there, the steps engine breaks
out of both loops). -/
def siScan (ring : List JVal) : List (ℕ × ℕ) → Except JErr Bool
  | [] => pure false
  | (i, j) :: rest => do
      let hit ← segmentsIntersect (ring.getD i .undef) (ring.getD (i+1) .undef)
        (ring.getD j .undef) (ring.getD (j+1) .undef)
      if hit then pure true else siScan ring rest

/-- One named pass/fail rule evaluation (interface `ValidationStep`). -/
structure ValidationStep : Type where
  rule : String
  passed : Bool
  message : String
deriving DecidableEq

/-- Accumulated result of the diagnostics engine
(interface `ValidationResultWithSteps`). -/
structure ValidationResultWithSteps : Type where
  isValid : Bool
  errors : List String
  steps : List ValidationStep

/-- Per-feature result of `validateAllPlotsWithSteps`
(interface `PerPlotValidationResult`).  The source reads `plotId` and
`farmer` off the raw feature, so they are arbitrary runtime values. -/
structure PerPlotValidationResult : Type where
  plotId : JVal
  farmer : JVal
  isValid : Bool
  errors : List String
  steps : List ValidationStep

/-- Result of the plain engine (interface `ValidationResult`). -/
structure ValidationResult : Type where
  isValid : Bool
  errors : List String

/-- The seven valid GeoJSON geometry type names (identical `validTypes`
list in both engines). -/
def validTypes : List String :=
  ["Point", "LineString", "Polygon", "MultiPoint", "MultiLineString",
   "MultiPolygon", "GeometryCollection"]

namespace GeoSteps

/-- Fresh accumulator `{ isValid: true, errors: [], steps: [] }`. -/
def emptyResults : ValidationResultWithSteps := ⟨true, [], []⟩

/-- Helper `addError` of the steps engine: sets `isValid` to `false` and
appends the message. -/
def addError (results : ValidationResultWithSteps) (message : String) :
    ValidationResultWithSteps :=
  { results with isValid := false, errors := results.errors ++ [message] }

/-- Helper `addStep` of the steps engine: appends a step record. -/
def addStep (results : ValidationResultWithSteps) (rule : String) (passed : Bool)
    (message : String) : ValidationResultWithSteps :=
  { results with steps := results.steps ++ [⟨rule, passed, message⟩] }

/-- Helper `roundCoord`: `coord.map(val => typeof val === "number" ?
Math.round(val * 1e6) / 1e6 : val)`; `.map` on a non-array throws. -/
def roundCoord : JVal → Except JErr JVal
  | .arr xs => pure (.arr (xs.map (fun v => match v with
      | .num q => .num (round6 q)
      | w => w)))
  | v => throw (.typeError (s!"coord.map is not a function on {typeofStr v}"))

/-- Helper `pointsEqual` of the steps engine: tolerance-rounded
element-wise comparison of the two rounded coordinates. -/
def pointsEqual (p1 p2 : JVal) : Except JErr Bool := do
  let r1 ← roundCoord p1
  let r2 ← roundCoord p2
  match r1, r2 with
  | .arr xs, .arr ys =>
      pure (xs.length == ys.length && (xs.zip ys).all (fun ab => jsEq ab.1 ab.2))
  | _, _ => pure false

end GeoSteps

namespace GeoSteps

/-- Coordinate rule of the steps engine (`validateCoordinateWithSteps`):
format, longitude range, latitude range — and, unlike the plain engine,
no precision check.  This function performs no throwing operation, so it
is total. -/
def validateCoordinateWithSteps (coord : JVal) (featureIndex ringIndex pointIndex : ℕ)
    (results : ValidationResultWithSteps) : ValidationResultWithSteps :=
  match coord with
  | .arr xs =>
      if xs.length < 2 || xs.length > 3 then
        addError (addStep results (s!"Feature {featureIndex} Point {pointIndex} format") false
          (s!"Feature {featureIndex} Point {pointIndex}: Invalid coordinate format"))
          (s!"Feature {featureIndex} Point {pointIndex}: Invalid coordinate format")
      else
        let results := addStep results (s!"Feature {featureIndex} Point {pointIndex} format") true
          (s!"Feature {featureIndex} Point {pointIndex}: Coordinate format is valid")
        let lon := xs.getD 0 .undef
        let lat := xs.getD 1 .undef
        let lonBad : Bool := match lon with
          | .num q => q.ltB (QJ.int (-180)) || (QJ.int 180).ltB q
          | _ => true
        let results :=
          if lonBad then
            addError (addStep results (s!"Feature {featureIndex} Point {pointIndex} longitude")
              false (s!"Feature {featureIndex} Point {pointIndex}: Invalid longitude {jsDisplay lon}"))
              (s!"Feature {featureIndex} Point {pointIndex}: Invalid longitude {jsDisplay lon}")
          else
            addStep results (s!"Feature {featureIndex} Point {pointIndex} longitude") true
              (s!"Feature {featureIndex} Point {pointIndex}: Longitude is valid")
        let latBad : Bool := match lat with
          | .num q => q.ltB (QJ.int (-90)) || (QJ.int 90).ltB q
          | _ => true
        if latBad then
          addError (addStep results (s!"Feature {featureIndex} Point {pointIndex} latitude")
            false (s!"Feature {featureIndex} Point {pointIndex}: Invalid latitude {jsDisplay lat}"))
            (s!"Feature {featureIndex} Point {pointIndex}: Invalid latitude {jsDisplay lat}")
        else
          addStep results (s!"Feature {featureIndex} Point {pointIndex} latitude") true
            (s!"Feature {featureIndex} Point {pointIndex}: Latitude is valid")
  | _ =>
      addError (addStep results (s!"Feature {featureIndex} Point {pointIndex} format") false
        (s!"Feature {featureIndex} Point {pointIndex}: Invalid coordinate format"))
        (s!"Feature {featureIndex} Point {pointIndex}: Invalid coordinate format")

/-- Rule 14 loop of `validateRingWithSteps`: duplicate consecutive
points, one violation per offending adjacent pair, no short-circuit. -/
def dupPointsLoop (pts : List JVal) (featureIndex : ℕ) :
    List ℕ → ValidationResultWithSteps → Except JErr ValidationResultWithSteps
  | [], results => pure results
  | i :: rest, results => do
      let eq ← pointsEqual (pts.getD i .undef) (pts.getD (i-1) .undef)
      let results :=
        if eq then
          addError (addStep results (s!"Feature {featureIndex} duplicate points") false
            (s!"Feature {featureIndex}: Duplicate consecutive points at {i - 1} and {i}"))
            (s!"Feature {featureIndex}: Duplicate consecutive points at {i - 1} and {i}")
        else results
      dupPointsLoop pts featureIndex rest results

/-- Rule 16 loop of `validateRingWithSteps`: zero-length edges — the
same predicate and pairing as Rule 14 with a different message. -/
def zeroLengthLoop (pts : List JVal) (featureIndex : ℕ) :
    List ℕ → ValidationResultWithSteps → Except JErr ValidationResultWithSteps
  | [], results => pure results
  | i :: rest, results => do
      let eq ← pointsEqual (pts.getD i .undef) (pts.getD (i-1) .undef)
      let results :=
        if eq then
          addError (addStep results (s!"Feature {featureIndex} zero-length edge") false
            (s!"Feature {featureIndex}: Zero-length edge at points {i - 1} and {i}"))
            (s!"Feature {featureIndex}: Zero-length edge at points {i - 1} and {i}")
        else results
      zeroLengthLoop pts featureIndex rest results

/-- The `ring.forEach` loop delegating each position to the coordinate
rule (`List.enum` pairs each position with its index). -/
def coordLoop (featureIndex ringIndex : ℕ) :
    List (ℕ × JVal) → ValidationResultWithSteps → ValidationResultWithSteps
  | [], results => results
  | (pointIndex, coord) :: rest, results =>
      coordLoop featureIndex ringIndex rest
        (validateCoordinateWithSteps coord featureIndex ringIndex pointIndex results)

/-- Rule 12 of the steps engine (`checkSelfIntersectionsWithSteps`): scan
non-adjacent edge pairs, record one failing step and stop at the first
crossing, or record one passing step. -/
def checkSelfIntersectionsWithSteps (ring : List JVal) (featureIndex : ℕ)
    (results : ValidationResultWithSteps) : Except JErr ValidationResultWithSteps := do
  let found ← siScan ring (siPairs ring.length)
  if found then
    pure (addError (addStep results (s!"Feature {featureIndex} self-intersection") false
      (s!"Feature {featureIndex}: Self-intersection detected"))
      (s!"Feature {featureIndex}: Self-intersection detected"))
  else
    pure (addStep results (s!"Feature {featureIndex} self-intersection") true
      (s!"Feature {featureIndex}: No self-intersections"))

/-- Interior loop of `checkForSpikesWithSteps`: one failing step per
spike vertex found, and a `found` flag (the interpolated angle text of
the source message is omitted, see the module comment). -/
def spikesLoop (pts : List JVal) (featureIndex : ℕ) :
    List ℕ → ValidationResultWithSteps → Bool →
    Except JErr (ValidationResultWithSteps × Bool)
  | [], results, found => pure (results, found)
  | i :: rest, results, found => do
      let sp ← spikeCheck (pts.getD (i-1) .undef) (pts.getD i .undef) (pts.getD (i+1) .undef)
      if sp then
        spikesLoop pts featureIndex rest
          (addError (addStep results (s!"Feature {featureIndex} spike vertex") false
            (s!"Feature {featureIndex}: Spike vertex detected"))
            (s!"Feature {featureIndex}: Spike vertex detected")) true
      else spikesLoop pts featureIndex rest results found

/-- Rule 15 of the steps engine (`checkForSpikesWithSteps`). -/
def checkForSpikesWithSteps (ring : List JVal) (featureIndex : ℕ)
    (results : ValidationResultWithSteps) : Except JErr ValidationResultWithSteps := do
  let rf ← spikesLoop ring featureIndex (List.range' 1 (ring.length - 2)) results false
  if !rf.2 then
    pure (addStep rf.1 (s!"Feature {featureIndex} spike vertex") true
      (s!"Feature {featureIndex}: No spike vertices"))
  else pure rf.1

/-- Rule 22 of the steps engine
(`checkExcessiveStraightLinesWithSteps`): a closed 4-position ring (a
triangle) passes; any other ring of at most 4 positions fails; longer
rings pass.  `pointsEqual` is only invoked when the length is exactly 4
(the `&&` short-circuit of the source). -/
def checkExcessiveStraightLinesWithSteps (ring : List JVal) (featureIndex : ℕ)
    (results : ValidationResultWithSteps) : Except JErr ValidationResultWithSteps := do
  let tri ← (if ring.length == 4 then
      pointsEqual (ring.getD 0 .undef) (ring.getD (ring.length - 1) .undef)
    else pure false)
  if tri then
    pure (addStep results (s!"Feature {featureIndex} straight lines") true
      (s!"Feature {featureIndex}: Polygon is a closed triangle (acceptable)"))
  else if ring.length ≤ 4 then
    pure (addError (addStep results (s!"Feature {featureIndex} straight lines") false
      (s!"Feature {featureIndex}: Polygon may have excessive straight lines (not enough points for curves)"))
      (s!"Feature {featureIndex}: Polygon may have excessive straight lines (not enough points for curves)"))
  else
    pure (addStep results (s!"Feature {featureIndex} straight lines") true
      (s!"Feature {featureIndex}: Polygon has enough points for curves"))

/-- Ring rule of the steps engine (`validateRingWithSteps`): array-ness
and minimum size short-circuit; closure, duplicates, zero-length edges,
coordinates, self-intersection, spikes and the straight-lines heuristic
all run in sequence. -/
def validateRingWithSteps (ring : JVal) (featureIndex ringIndex : ℕ)
    (results : ValidationResultWithSteps) : Except JErr ValidationResultWithSteps := do
  match ring with
  | .arr pts =>
      let results := addStep results (s!"Feature {featureIndex} ring array") true
        (s!"Feature {featureIndex}: Ring is an array of positions")
      if pts.length < 4 then
        pure (addError (addStep results (s!"Feature {featureIndex} ring points") false
          (s!"Feature {featureIndex}: Ring must have at least 4 points"))
          (s!"Feature {featureIndex}: Ring must have at least 4 points"))
      else do
        let results := addStep results (s!"Feature {featureIndex} ring points") true
          (s!"Feature {featureIndex}: Ring has at least 4 points")
        let closed ← pointsEqual (pts.getD 0 .undef) (pts.getD (pts.length - 1) .undef)
        let results :=
          if !closed then
            addError (addStep results (s!"Feature {featureIndex} ring closure") false
              (s!"Feature {featureIndex}: Ring must be closed (first/last points identical)"))
              (s!"Feature {featureIndex}: Ring must be closed (first/last points identical)")
          else
            addStep results (s!"Feature {featureIndex} ring closure") true
              (s!"Feature {featureIndex}: Ring is closed")
        let results ← dupPointsLoop pts featureIndex (List.range' 1 (pts.length - 1)) results
        let results ← zeroLengthLoop pts featureIndex (List.range' 1 (pts.length - 1)) results
        let results := coordLoop featureIndex ringIndex pts.enum results
        let results ← checkSelfIntersectionsWithSteps pts featureIndex results
        let results ← checkForSpikesWithSteps pts featureIndex results
        checkExcessiveStraightLinesWithSteps pts featureIndex results
  | _ =>
      pure (addError (addStep results (s!"Feature {featureIndex} ring array") false
        (s!"Feature {featureIndex}: Ring must be an array of positions"))
        (s!"Feature {featureIndex}: Ring must be an array of positions"))

/-- Polygon rule of the steps engine
(`validatePolygonCoordinatesWithSteps`): no interior rings, an exterior
ring must exist; then the exterior ring is validated. -/
def validatePolygonCoordinatesWithSteps (coordinates : List JVal) (featureIndex : ℕ)
    (results : ValidationResultWithSteps) : Except JErr ValidationResultWithSteps := do
  if coordinates.length > 1 then
    pure (addError (addStep results (s!"Feature {featureIndex} interior rings") false
      (s!"Feature {featureIndex}: Interior rings (holes) are not allowed"))
      (s!"Feature {featureIndex}: Interior rings (holes) are not allowed"))
  else
    let results := addStep results (s!"Feature {featureIndex} interior rings") true
      (s!"Feature {featureIndex}: No interior rings")
    if coordinates.length == 0 then
      pure (addError (addStep results (s!"Feature {featureIndex} exterior ring") false
        (s!"Feature {featureIndex}: Polygon must have an exterior ring"))
        (s!"Feature {featureIndex}: Polygon must have an exterior ring"))
    else
      let results := addStep results (s!"Feature {featureIndex} exterior ring") true
        (s!"Feature {featureIndex}: Polygon has an exterior ring")
      validateRingWithSteps (coordinates.getD 0 .undef) featureIndex 0 results

/-- Geometry rule of the steps engine (`validateGeometryWithSteps`):
valid GeoJSON geometry type, Polygon-only policy, coordinates array;
then the polygon rule. -/
def validateGeometryWithSteps (geometry : JVal) (featureIndex : ℕ)
    (results : ValidationResultWithSteps) : Except JErr ValidationResultWithSteps := do
  let gtype ← getProp geometry "type"
  if !(truthy gtype) || !(validTypes.any (fun t => jsEq gtype (.str t))) then
    pure (addError (addStep results (s!"Feature {featureIndex} geometry type") false
      (s!"Feature {featureIndex}: Invalid geometry type"))
      (s!"Feature {featureIndex}: Invalid geometry type"))
  else
    let gname : String := match gtype with
      | .str s => s
      | _ => ""
    let results := addStep results (s!"Feature {featureIndex} geometry type") true
      (s!"Feature {featureIndex}: Geometry type is \x27{gname}\x27")
    if !(jsEq gtype (.str ("Polygon"))) then
      pure (addError (addStep results (s!"Feature {featureIndex} geometry type") false
        (s!"Feature {featureIndex}: Only Polygon geometries are supported"))
        (s!"Feature {featureIndex}: Only Polygon geometries are supported"))
    else do
      let coords ← getProp geometry "coordinates"
      match coords with
      | .arr cs =>
          let results := addStep results (s!"Feature {featureIndex} coordinates") true
            (s!"Feature {featureIndex}: Coordinates are an array")
          validatePolygonCoordinatesWithSteps cs featureIndex results
      | _ =>
          pure (addError (addStep results (s!"Feature {featureIndex} coordinates") false
            (s!"Feature {featureIndex}: Coordinates must be an array"))
            (s!"Feature {featureIndex}: Coordinates must be an array"))

/-- Rule 18 loop of `validateFeatureWithSteps`: each required property
name is checked independently (`!feature.properties ||
!(prop in feature.properties)`). -/
def requiredPropsLoop (feature : JVal) (index : ℕ) :
    List String → ValidationResultWithSteps → Except JErr ValidationResultWithSteps
  | [], results => pure results
  | prop :: rest, results => do
      let props ← getProp feature "properties"
      let missing ← (if !(truthy props) then pure true else do
          let h ← hasProp prop props
          pure (!h))
      let results :=
        if missing then
          addError (addStep results (s!"Feature {index} property {prop}") false
            (s!"Feature {index}: Missing required property \x27{prop}\x27"))
            (s!"Feature {index}: Missing required property \x27{prop}\x27")
        else
          addStep results (s!"Feature {index} property {prop}") true
            (s!"Feature {index}: Property \x27{prop}\x27 is present")
      requiredPropsLoop feature index rest results

/-- Feature rule of the steps engine (`validateFeatureWithSteps`).
Reading `feature.type` throws on a `null`/`undefined` feature, and
`"area" in feature.properties` throws when `properties` is `null`,
exactly as in the source. -/
def validateFeatureWithSteps (feature : JVal) (index : ℕ)
    (results : ValidationResultWithSteps) : Except JErr ValidationResultWithSteps := do
  let ftype ← getProp feature "type"
  if !(jsEq ftype (.str ("Feature"))) then
    pure (addError (addStep results (s!"Feature {index} type") false
      (s!"Feature {index}: Type must be \x27Feature\x27"))
      (s!"Feature {index}: Type must be \x27Feature\x27"))
  else do
    let results := addStep results (s!"Feature {index} type") true
      (s!"Feature {index} type is \x27Feature\x27")
    let hasP ← hasProp "properties" feature
    let props ← getProp feature "properties"
    if !hasP || (!(jsEq props .null) && typeofStr props != "object") then
      pure (addError (addStep results (s!"Feature {index} properties") false
        (s!"Feature {index}: \x27properties\x27 must be an object or null"))
        (s!"Feature {index}: \x27properties\x27 must be an object or null"))
    else do
      let results := addStep results (s!"Feature {index} properties") true
        (s!"Feature {index}: \x27properties\x27 is valid")
      let results ← requiredPropsLoop feature index ["plot_ID", "farmer_name"] results
      let props ← getProp feature "properties"
      let hasArea ← hasProp "area" props
      let results ←
        if hasArea then do
          let area ← getProp props "area"
          if typeofStr area != "number" then
            pure (addError (addStep results (s!"Feature {index} property area") false
              (s!"Feature {index}: \x27area\x27 property must be a number"))
              (s!"Feature {index}: \x27area\x27 property must be a number"))
          else
            pure (addStep results (s!"Feature {index} property area") true
              (s!"Feature {index}: \x27area\x27 property is a number"))
        else pure results
      let hasG ← hasProp "geometry" feature
      let geom ← getProp feature "geometry"
      if !hasG && !(jsEq geom .null) then
        pure (addError (addStep results (s!"Feature {index} geometry") false
          (s!"Feature {index}: Missing \x27geometry\x27 property"))
          (s!"Feature {index}: Missing \x27geometry\x27 property"))
      else if jsEq geom .null then
        pure (addStep results (s!"Feature {index} geometry") true
          (s!"Feature {index}: geometry is null (allowed)"))
      else validateGeometryWithSteps geom index results

/-- The `geojson.features.forEach` loop of `validateGeoJSONWithSteps`. -/
def featuresLoop : List JVal → ℕ → ValidationResultWithSteps →
    Except JErr ValidationResultWithSteps
  | [], _, results => pure results
  | f :: rest, index, results => do
      let results ← validateFeatureWithSteps f index results
      featuresLoop rest (index + 1) results

/-- Collection rule and aggregate entry point of the steps engine
(`validateGeoJSONWithSteps`). -/
def validateGeoJSONWithSteps (geojson : JVal) : Except JErr ValidationResultWithSteps := do
  let results := emptyResults
  if !(truthy geojson) || typeofStr geojson != "object" then
    pure (addError (addStep results ("Root type") false ("GeoJSON must be a valid object"))
      ("GeoJSON must be a valid object"))
  else do
    let t ← getProp geojson "type"
    if !(jsEq t (.str ("FeatureCollection"))) then
      pure (addError
        (addStep results ("Root type") false ("Root type must be \x27FeatureCollection\x27"))
        ("Root type must be \x27FeatureCollection\x27"))
    else do
      let results := addStep results ("Root type") true ("Root type is \x27FeatureCollection\x27")
      let fs ← getProp geojson "features"
      match fs with
      | .arr features =>
          if features.length == 0 then
            pure (addError (addStep results ("Features array") false
              ("\x27features\x27 must be a non-empty array"))
              ("\x27features\x27 must be a non-empty array"))
          else do
            let results := addStep results ("Features array") true
              ("\x27features\x27 is a non-empty array")
            featuresLoop features 0 results
      | _ =>
          pure (addError (addStep results ("Features array") false
            ("\x27features\x27 must be a non-empty array"))
            ("\x27features\x27 must be a non-empty array"))

/-- Body of the `map` of `validateAllPlotsWithSteps`: validate one
feature against a fresh accumulator, then read off the display fields
with optional chaining and falsy fallbacks. -/
def perPlot (feature : JVal) (index : ℕ) : Except JErr PerPlotValidationResult := do
  let stepsResult ← validateFeatureWithSteps feature index emptyResults
  let pid := optGet (optGet feature "properties") "plot_ID"
  let farmer := optGet (optGet feature "properties") "farmer_name"
  pure { plotId := if truthy pid then pid else .str (s!"Feature {index}")
         farmer := if truthy farmer then farmer else .str ("")
         isValid := stepsResult.isValid
         errors := stepsResult.errors
         steps := stepsResult.steps }

/-- The indexed `map` of `validateAllPlotsWithSteps`. -/
def plotsLoop : List JVal → ℕ → Except JErr (List PerPlotValidationResult)
  | [], _ => pure []
  | f :: rest, index => do
      let p ← perPlot f index
      let ps ← plotsLoop rest (index + 1)
      pure (p :: ps)

/-- Per-feature entry point of the steps engine
(`validateAllPlotsWithSteps`): an empty list for every non-conforming
root document, otherwise one independent `PerPlotValidationResult` per
feature. -/
def validateAllPlotsWithSteps (geojson : JVal) :
    Except JErr (List PerPlotValidationResult) := do
  if !(truthy geojson) || typeofStr geojson != "object" then pure []
  else do
    let t ← getProp geojson "type"
    if !(jsEq t (.str ("FeatureCollection"))) then pure []
    else do
      let fs ← getProp geojson "features"
      match fs with
      | .arr features => plotsLoop features 0
      | _ => pure []

end GeoSteps

/-- JavaScript indexed read `v[e]` where the index is a computed number
(possibly NaN, modelled `none`): integer in-range indices read array
elements, anything else reads an absent property (`undefined`). -/
def getIdxQ : JVal → Option QJ → Except JErr JVal
  | .null, _ => throw (.typeError ("Cannot read properties of null (reading index)"))
  | .undef, _ => throw (.typeError ("Cannot read properties of undefined (reading index)"))
  | .arr xs, some q =>
      pure (if q.n % q.d = 0 ∧ 0 ≤ q.n / q.d ∧ q.n / q.d < (xs.length : ℤ) then
        xs.getD (q.n / q.d).toNat .undef else .undef)
  | .str s, some q =>
      pure (if q.n % q.d = 0 ∧ 0 ≤ q.n / q.d ∧ q.n / q.d < (s.data.length : ℤ) then
        .str (String.mk [s.data.getD (q.n / q.d).toNat ' ']) else .undef)
  | _, _ => pure JVal.undef

/-- Fuel-bounded count of how many times `p` divides `m` (exact whenever
the count is below the fuel; called with the value as its own fuel, which
always suffices for `m ≥ 1`, `2 ≤ p`). -/
def pvalAux (p : ℕ) : ℕ → ℕ → ℕ
  | 0, _ => 0
  | fuel+1, m => if m % p == 0 then pvalAux p fuel (m / p) + 1 else 0

/-- Fuel-bounded decimal digit count of `m` (`0` for `m = 0`; called with
the value as its own fuel, which always suffices). -/
def numDigitsAux : ℕ → ℕ → ℕ
  | 0, _ => 0
  | fuel+1, m => if m == 0 then 0 else numDigitsAux fuel (m / 10) + 1

namespace GeoPlain

/-- Fresh accumulator `{ isValid: true, errors: [] }` of the plain
engine. -/
def emptyResults : ValidationResult := ⟨true, []⟩

/-- Helper `addError` of the plain engine. -/
def addError (results : ValidationResult) (message : String) : ValidationResult :=
  { results with isValid := false, errors := results.errors ++ [message] }

/-- The `p1.every((val, i) => val === p2[i])` loop of the plain
`pointsEqual` (short-circuits at the first mismatch). -/
def everyEqAux (p2 : JVal) : List JVal → ℕ → Except JErr Bool
  | [], _ => pure true
  | v :: rest, i => do
      let w ← getIdxNat p2 i
      if jsEq v w then everyEqAux p2 rest (i+1) else pure false

/-- Helper `pointsEqual` of the plain engine: EXACT element-wise
comparison — unlike the steps engine there is no rounding.  Reading
`.length` throws on `null`/`undefined`, and `.every` throws on any
non-array receiver (reached only when the length comparison
succeeded). -/
def pointsEqual (p1 p2 : JVal) : Except JErr Bool := do
  let l1 ← getProp p1 "length"
  let l2 ← getProp p2 "length"
  if jsEq l1 l2 then
    match p1 with
    | .arr xs => everyEqAux p2 xs 0
    | v => throw (.typeError (s!"p1.every is not a function on {typeofStr v}"))
  else pure false

/-- Helper `hasExcessivePrecision` of the plain engine.  The source
renders the value with `num.toString()` and tests whether the part after
the decimal point is longer than six characters.  `toString` prints a
number of magnitude at least `1e-6` (and zero) in positional notation,
whose fractional part has more than six digits exactly when `q * 10^6`
is not an integer; a smaller non-zero magnitude prints in exponential
notation `d.dddde-k`, whose post-dot part is the mantissa\x27s fractional
digits followed by the three-plus characters `e-k` — and is absent
entirely when the mantissa is a single digit (e.g. `(1e-7).toString()`
is `"1e-7"`, which contains no dot and is never flagged).  The embedding
computes the exact decimal expansion of the rational value via `pvalAux`
and `numDigitsAux`: `j` is the number of fractional digits, `ksig` the
number of significant digits (the mantissa has `ksig - 1` digits after
its dot) and `ex` the displayed exponent.  Magnitudes of `1e21` and
beyond (also exponential in JavaScript, far outside the coordinate
ranges) are modelled positionally, and a value with a non-terminating
expansion (impossible for a binary float) is flagged; neither regime is
exercised by any theorem.  `toString` on `null`/`undefined` throws;
booleans and plain objects render without a decimal point; for strings
the characters between the first and second dot are counted as the
source does.  (Array receivers are modelled as precision-free; no input
considered has an array coordinate component.) -/
def hasExcessivePrecision : JVal → Except JErr Bool
  | .num q => pure (
      let a := q.n.natAbs
      let b := q.d.toNat
      if a == 0 then false
      else if b ≤ a * 1000000 then !((q.n * 1000000) % q.d == 0)
      else
        let d0 := b / Nat.gcd a b
        let e2 := pvalAux 2 d0 d0
        let e5 := pvalAux 5 d0 d0
        if d0 == 2 ^ e2 * 5 ^ e5 then
          let j := max e2 e5
          let m := a * 10 ^ j / b
          let ksig := numDigitsAux m m
          let ex := 1 + j - ksig
          decide (2 ≤ ksig) && decide (6 < ksig - 1 + 2 + numDigitsAux ex ex)
        else true)
  | .null => throw (.typeError ("Cannot read properties of null (reading toString)"))
  | .undef => throw (.typeError ("Cannot read properties of undefined (reading toString)"))
  | .bool _ => pure false
  | .str s => pure (match s.splitOn "." with
      | _ :: p :: _ => decide (p.length > 6)
      | _ => false)
  | .arr _ => pure false
  | .obj _ => pure false

/-- Coordinate rule of the plain engine (`validateCoordinate`): format,
longitude range, latitude range, and — unlike the steps engine — the
Rule 11 precision check (whose `||` short-circuit is preserved: the
latitude is only inspected when the longitude is precision-clean). -/
def validateCoordinate (coord : JVal) (featureIndex ringIndex pointIndex : ℕ)
    (results : ValidationResult) : Except JErr ValidationResult := do
  match coord with
  | .arr xs =>
      if xs.length < 2 || xs.length > 3 then
        pure (addError results
          (s!"Feature {featureIndex} Point {pointIndex}: Invalid coordinate format"))
      else do
        let lon := xs.getD 0 .undef
        let lat := xs.getD 1 .undef
        let lonBad : Bool := match lon with
          | .num q => q.ltB (QJ.int (-180)) || (QJ.int 180).ltB q
          | _ => true
        let results :=
          if lonBad then
            addError results
              (s!"Feature {featureIndex} Point {pointIndex}: Invalid longitude {jsDisplay lon}")
          else results
        let latBad : Bool := match lat with
          | .num q => q.ltB (QJ.int (-90)) || (QJ.int 90).ltB q
          | _ => true
        let results :=
          if latBad then
            addError results
              (s!"Feature {featureIndex} Point {pointIndex}: Invalid latitude {jsDisplay lat}")
          else results
        let ex ← (do
          let e1 ← hasExcessivePrecision lon
          if e1 then pure true else hasExcessivePrecision lat)
        if ex then
          pure (addError results
            (s!"Feature {featureIndex} Point {pointIndex}: Excessive coordinate precision"))
        else pure results
  | _ =>
      pure (addError results
        (s!"Feature {featureIndex} Point {pointIndex}: Invalid coordinate format"))

/-- Rule 14 loop of the plain `validateRing`. -/
def dupPointsLoop (pts : List JVal) (featureIndex : ℕ) :
    List ℕ → ValidationResult → Except JErr ValidationResult
  | [], results => pure results
  | i :: rest, results => do
      let eq ← pointsEqual (pts.getD i .undef) (pts.getD (i-1) .undef)
      let results :=
        if eq then
          addError results
            (s!"Feature {featureIndex}: Duplicate consecutive points at {i - 1} and {i}")
        else results
      dupPointsLoop pts featureIndex rest results

/-- Rule 16 loop of the plain `validateRing`. -/
def zeroLengthLoop (pts : List JVal) (featureIndex : ℕ) :
    List ℕ → ValidationResult → Except JErr ValidationResult
  | [], results => pure results
  | i :: rest, results => do
      let eq ← pointsEqual (pts.getD i .undef) (pts.getD (i-1) .undef)
      let results :=
        if eq then
          addError results
            (s!"Feature {featureIndex}: Zero-length edge at points {i - 1} and {i}")
        else results
      zeroLengthLoop pts featureIndex rest results

/-- The `ring.forEach` loop of the plain `validateRing`. -/
def coordLoop (featureIndex ringIndex : ℕ) :
    List (ℕ × JVal) → ValidationResult → Except JErr ValidationResult
  | [], results => pure results
  | (pointIndex, coord) :: rest, results => do
      let results ← validateCoordinate coord featureIndex ringIndex pointIndex results
      coordLoop featureIndex ringIndex rest results

/-- Rule 12 of the plain engine (`checkSelfIntersections`): the same
scan as the steps engine, reporting at most one violation
(`return` at the first crossing). -/
def checkSelfIntersections (ring : List JVal) (featureIndex : ℕ)
    (results : ValidationResult) : Except JErr ValidationResult := do
  let found ← siScan ring (siPairs ring.length)
  if found then
    pure (addError results (s!"Feature {featureIndex}: Self-intersection detected"))
  else pure results

/-- Rule 15 loop of the plain engine (`checkForSpikes`): one error per
spike vertex, no passing record. -/
def spikesLoop (pts : List JVal) (featureIndex : ℕ) :
    List ℕ → ValidationResult → Except JErr ValidationResult
  | [], results => pure results
  | i :: rest, results => do
      let sp ← spikeCheck (pts.getD (i-1) .undef) (pts.getD i .undef) (pts.getD (i+1) .undef)
      let results :=
        if sp then
          addError results (s!"Feature {featureIndex}: Spike vertex detected")
        else results
      spikesLoop pts featureIndex rest results

/-- Rule 15 of the plain engine. -/
def checkForSpikes (ring : List JVal) (featureIndex : ℕ)
    (results : ValidationResult) : Except JErr ValidationResult :=
  spikesLoop ring featureIndex (List.range' 1 (ring.length - 2)) results

/-- Rule 22 of the plain engine (`checkExcessiveStraightLines`): every
ring of at most 4 positions fails — unlike the steps engine there is no
closed-triangle exemption. -/
def checkExcessiveStraightLines (ring : List JVal) (featureIndex : ℕ)
    (results : ValidationResult) : ValidationResult :=
  if ring.length ≤ 4 then
    addError results
      (s!"Feature {featureIndex}: Polygon may have excessive straight lines (not enough points for curves)")
  else results

/-- Ring rule of the plain engine (`validateRing`).  The closure check
runs FIRST (before the minimum-size gate), and `pointsEqual` reads
`ring[0].length`, so an empty ring throws a `TypeError`
(`undefined.length`).  Non-array rings that reach the loop section
always throw in the source (at `.every` inside the duplicate loop for
strings, at `ring.forEach` otherwise), which the catch-all branch
mirrors. -/
def validateRing (ring : JVal) (featureIndex ringIndex : ℕ)
    (results : ValidationResult) : Except JErr ValidationResult := do
  let p0 ← getIdxNat ring 0
  let lenv ← getProp ring "length"
  let plast ← getIdxQ ring (jsSub (toNum lenv) (some (QJ.int 1)))
  let closed ← pointsEqual p0 plast
  let results :=
    if !closed then
      addError results
        (s!"Feature {featureIndex}: Ring must be closed (first/last points identical)")
    else results
  if jsLtB (toNum lenv) (some (QJ.int 4)) then
    pure (addError results (s!"Feature {featureIndex}: Ring must have at least 4 points"))
  else
    match ring with
    | .arr pts => do
        let results ← dupPointsLoop pts featureIndex (List.range' 1 (pts.length - 1)) results
        let results ← zeroLengthLoop pts featureIndex (List.range' 1 (pts.length - 1)) results
        let results ← coordLoop featureIndex ringIndex pts.enum results
        let results ← checkSelfIntersections pts featureIndex results
        let results ← checkForSpikes pts featureIndex results
        pure (checkExcessiveStraightLines pts featureIndex results)
    | v => throw (.typeError (s!"ring iteration is not possible on {typeofStr v}"))

/-- Polygon rule of the plain engine (`validatePolygonCoordinates`). -/
def validatePolygonCoordinates (coordinates : List JVal) (featureIndex : ℕ)
    (results : ValidationResult) : Except JErr ValidationResult := do
  if coordinates.length > 1 then
    pure (addError results (s!"Feature {featureIndex}: Interior rings (holes) are not allowed"))
  else if coordinates.length == 0 then
    pure (addError results (s!"Feature {featureIndex}: Polygon must have an exterior ring"))
  else
    validateRing (coordinates.getD 0 .undef) featureIndex 0 results

/-- Geometry rule of the plain engine (`validateGeometry`). -/
def validateGeometry (geometry : JVal) (featureIndex : ℕ)
    (results : ValidationResult) : Except JErr ValidationResult := do
  let gtype ← getProp geometry "type"
  if !(truthy gtype) || !(validTypes.any (fun t => jsEq gtype (.str t))) then
    pure (addError results (s!"Feature {featureIndex}: Invalid geometry type"))
  else if !(jsEq gtype (.str ("Polygon"))) then
    pure (addError results (s!"Feature {featureIndex}: Only Polygon geometries are supported"))
  else do
    let coords ← getProp geometry "coordinates"
    match coords with
    | .arr cs => validatePolygonCoordinates cs featureIndex results
    | _ => pure (addError results (s!"Feature {featureIndex}: Coordinates must be an array"))

/-- Rule 18 loop of the plain `validateFeature`. -/
def requiredPropsLoop (feature : JVal) (index : ℕ) :
    List String → ValidationResult → Except JErr ValidationResult
  | [], results => pure results
  | prop :: rest, results => do
      let props ← getProp feature "properties"
      let missing ← (if !(truthy props) then pure true else do
          let h ← hasProp prop props
          pure (!h))
      let results :=
        if missing then
          addError results (s!"Feature {index}: Missing required property \x27{prop}\x27")
        else results
      requiredPropsLoop feature index rest results

/-- Feature rule of the plain engine (`validateFeature`).  As in the
steps engine, `feature.type` throws on a `null`/`undefined` feature and
`"area" in feature.properties` throws when `properties` is `null`.
Geometry presence is tested by truthiness
(`!feature.geometry && feature.geometry !== null`). -/
def validateFeature (feature : JVal) (index : ℕ)
    (results : ValidationResult) : Except JErr ValidationResult := do
  let ftype ← getProp feature "type"
  if !(jsEq ftype (.str ("Feature"))) then
    pure (addError results (s!"Feature {index}: Type must be \x27Feature\x27"))
  else do
    let hasP ← hasProp "properties" feature
    let props ← getProp feature "properties"
    if !hasP || (!(jsEq props .null) && typeofStr props != "object") then
      pure (addError results (s!"Feature {index}: \x27properties\x27 must be an object or null"))
    else do
      let results ← requiredPropsLoop feature index ["plot_ID", "farmer_name"] results
      let props ← getProp feature "properties"
      let hasArea ← hasProp "area" props
      let results ←
        if hasArea then do
          let area ← getProp props "area"
          if typeofStr area != "number" then
            pure (addError results (s!"Feature {index}: \x27area\x27 property must be a number"))
          else pure results
        else pure results
      let geom ← getProp feature "geometry"
      if !(truthy geom) && !(jsEq geom .null) then
        pure (addError results (s!"Feature {index}: Missing \x27geometry\x27 property"))
      else if jsEq geom .null then pure results
      else validateGeometry geom index results

/-- The `geojson.features.forEach` loop of `validateGeoJSON`. -/
def featuresLoop : List JVal → ℕ → ValidationResult → Except JErr ValidationResult
  | [], _, results => pure results
  | f :: rest, index, results => do
      let results ← validateFeature f index results
      featuresLoop rest (index + 1) results

/-- Collection rule and entry point of the plain engine
(`validateGeoJSON`). -/
def validateGeoJSON (geojson : JVal) : Except JErr ValidationResult := do
  let results := emptyResults
  if !(truthy geojson) || typeofStr geojson != "object" then
    pure (addError results ("GeoJSON must be a valid object"))
  else do
    let t ← getProp geojson "type"
    if !(jsEq t (.str ("FeatureCollection"))) then
      pure (addError results ("Root type must be \x27FeatureCollection\x27"))
    else do
      let fs ← getProp geojson "features"
      match fs with
      | .arr features =>
          if features.length == 0 then
            pure (addError results ("\x27features\x27 must be a non-empty array"))
          else featuresLoop features 0 results
      | _ => pure (addError results ("\x27features\x27 must be a non-empty array"))

end GeoPlain

/-- A two-coordinate numeric position as a runtime value. -/
def posJ (p : QJ × QJ) : JVal := .arr [.num p.1, .num p.2]

/-- A numeric position of any arity as a runtime value. -/
def posJl (p : List QJ) : JVal := .arr (p.map JVal.num)

/-- Pure counterpart of the `ccw` orientation test on two-coordinate
numeric positions. -/
def ccwB (a b c : QJ × QJ) : Bool :=
  ((b.2.sub a.2).mul (c.1.sub a.1)).ltB ((c.2.sub a.2).mul (b.1.sub a.1))

/-- Pure counterpart of `segmentsIntersect` on numeric positions. -/
def segIntB (p1 p2 p3 p4 : QJ × QJ) : Bool :=
  (ccwB p1 p3 p4 != ccwB p2 p3 p4) && (ccwB p1 p2 p3 != ccwB p1 p2 p4)

/-- Default position used for (never-reached) out-of-range reads. -/
def origin2 : QJ × QJ := (QJ.int 0, QJ.int 0)

/-- `segmentsIntersect` applied to the edge pair `(i, j)` of a numeric
ring. -/
def segIntAt (ring : List (QJ × QJ)) (ij : ℕ × ℕ) : Bool :=
  segIntB (ring.getD ij.1 origin2) (ring.getD (ij.1+1) origin2)
    (ring.getD ij.2 origin2) (ring.getD (ij.2+1) origin2)

/-- The self-intersection verdict of the scan on a numeric ring: some
tested edge pair properly crosses. -/
def siAny (ring : List (QJ × QJ)) : Bool := (siPairs ring.length).any (segIntAt ring)

/-- Rational cross product `(b - a) × (c - a)`; the source's `ccw` is
`0 < crossQ a b c`. -/
def crossQ (a b c : ℚ × ℚ) : ℚ := (b.1 - a.1) * (c.2 - a.2) - (b.2 - a.2) * (c.1 - a.1)

/-- Interpretation of a model position into rational coordinates. -/
def toQp (p : QJ × QJ) : ℚ × ℚ := (p.1.toQ, p.2.toQ)

/-- Cross product on model numbers. -/
def crossQJ (a b c : QJ × QJ) : QJ :=
  ((b.1.sub a.1).mul (c.2.sub a.2)).sub ((b.2.sub a.2).mul (c.1.sub a.1))

/-- Non-degeneracy of one tested edge pair: none of the four orientation
triples evaluated by `segmentsIntersect` on edges `(i, j)` is
collinear. -/
def genPosAt (ring : List (QJ × QJ)) (ij : ℕ × ℕ) : Bool :=
  let p1 := ring.getD ij.1 origin2
  let p2 := ring.getD (ij.1+1) origin2
  let p3 := ring.getD ij.2 origin2
  let p4 := ring.getD (ij.2+1) origin2
  !((crossQJ p1 p3 p4).eqB (QJ.int 0)) && !((crossQJ p2 p3 p4).eqB (QJ.int 0)) &&
  !((crossQJ p1 p2 p3).eqB (QJ.int 0)) && !((crossQJ p1 p2 p4).eqB (QJ.int 0))

/-- General position of a numeric ring: every edge pair tested by the
self-intersection scan is non-degenerate. -/
def genPosB (ring : List (QJ × QJ)) : Bool := (siPairs ring.length).all (genPosAt ring)

/-- One accumulator evolution step of the diagnostics engine: the final
accumulator extends the initial one by some error/step suffixes, validity
is conjunctively updated (hence monotone), and new errors exist exactly
when a new failing step exists. -/
def StepsExtend (r r' : ValidationResultWithSteps) : Prop :=
  ∃ es ss, r'.errors = r.errors ++ es ∧ r'.steps = r.steps ++ ss ∧
    r'.isValid = (r.isValid && es.isEmpty) ∧
    (es = [] ↔ ss.all (fun s => s.passed) = true)

/-- The root-document guard of `validateAllPlotsWithSteps`, read off the
source condition `!geojson || typeof geojson !== "object" ||
geojson.type !== "FeatureCollection" || !Array.isArray(geojson.features)`:
`some features` for a conforming root, `none` otherwise. -/
def rootFeatures (geojson : JVal) : Option (List JVal) :=
  if truthy geojson && (typeofStr geojson == "object") then
    if jsEq (optGet geojson "type") (.str ("FeatureCollection")) then
      match optGet geojson "features" with
      | .arr fs => some fs
      | _ => none
    else none
  else none

/-- Integer-coordinate runtime number. -/
def nm (k : ℤ) : JVal := .num (QJ.int k)

/-- Integer-coordinate runtime position `[a, b]`. -/
def pos2 (a b : ℤ) : JVal := .arr [nm a, nm b]

/-- The exterior ring of the concrete valid scenario: the unit square
`[[0,0],[0,1],[1,1],[1,0],[0,0]]`. -/
def ring7 : JVal := .arr [pos2 0 0, pos2 0 1, pos2 1 1, pos2 1 0, pos2 0 0]

/-- The single feature of the concrete valid scenario. -/
def feat7 : JVal := .obj [("type", .str "Feature"),
  ("properties", .obj [("plot_ID", .str "A1"), ("farmer_name", .str "J. Doe"),
    ("area", .num (QJ.dec 15 1))]),
  ("geometry", .obj [("type", .str "Polygon"), ("coordinates", .arr [ring7])])]

/-- The concrete valid scenario document of the specification. -/
def doc7 : JVal := .obj [("type", .str "FeatureCollection"), ("features", .arr [feat7])]

/-- A feature collection whose features array contains `null`. -/
def docNull : JVal := .obj [("type", .str "FeatureCollection"), ("features", .arr [.null])]

/-- A feature whose `properties` field is `null` (explicitly permitted
by the rule 17 check). -/
def featPN : JVal := .obj [("type", .str "Feature"), ("properties", .null)]

/-- A feature collection containing `featPN`. -/
def docPN : JVal := .obj [("type", .str "FeatureCollection"), ("features", .arr [featPN])]

/-- A feature collection with an empty features array. -/
def docEmpty : JVal := .obj [("type", .str "FeatureCollection"), ("features", .arr [])]

/-- A 5-position ring whose first and last positions differ only in the
seventh decimal place of the longitude (`1e-7` vs `0`). -/
def ringC2 : JVal :=
  .arr [pos2 0 0, pos2 0 1, pos2 1 1, pos2 1 0, .arr [.num (QJ.dec 1 7), nm 0]]

/-- Ring differing from `ringC2` in position 2, whose latitude
`1.0000001` carries seven fractional digits in positional decimal
notation: the plain engine records both the closure violation and the
later precision violation, evidence that the closure failure does not
short-circuit the remaining checks. -/
def ringC2b : JVal :=
  .arr [pos2 0 0, pos2 0 1, .arr [nm 1, .num (QJ.dec 10000001 7)], pos2 1 0,
    .arr [.num (QJ.dec 1 7), nm 0]]

/-- A closed triangle ring: 4 positions with identical first and last. -/
def ringTri : JVal := .arr [pos2 0 0, pos2 4 0, pos2 0 3, pos2 0 0]

/-- An OPEN 4-position ring (first and last differ beyond tolerance). -/
def ringOpen4 : JVal := .arr [pos2 0 0, pos2 0 1, pos2 1 1, pos2 2 5]

/-- Integer numeric pair as a model position. -/
def qp (a b : ℤ) : QJ × QJ := (QJ.int a, QJ.int b)

/-- The reversal counterexample ring for the self-intersection scan: the
edge from `(0,0)` to `(2,0)` contains the vertex `(1,0)` of the
non-adjacent edge down to `(1,-1)` (a collinear T-configuration), and
the strict orientation predicate sees the touch only in one traversal
direction. -/
def ringC8 : List (QJ × QJ) :=
  [qp 0 0, qp 2 0, qp 3 (-2), qp 1 (-1), qp 1 0, qp 0 0]

/-- The self-crossing "bowtie" ring of the specification, which is in
general position for every tested edge pair. -/
def ringBow : List (QJ × QJ) :=
  [qp 0 0, qp 1 1, qp 0 1, qp 1 0, qp 0 0]

/-- Ring identical to `ring7` except that position 2 has latitude
`1.0000001` (seven fractional digits). -/
def ring9 : JVal :=
  .arr [pos2 0 0, pos2 0 1, .arr [nm 1, .num (QJ.dec 10000001 7)], pos2 1 0, pos2 0 0]

/-- Feature wrapping `ring9` with valid required properties. -/
def feat9 : JVal := .obj [("type", .str "Feature"),
  ("properties", .obj [("plot_ID", .str "A1"), ("farmer_name", .str "J. Doe")]),
  ("geometry", .obj [("type", .str "Polygon"), ("coordinates", .arr [ring9])])]

/-- Document differing from a fully valid one only by one coordinate
with seven fractional digits. -/
def doc9 : JVal := .obj [("type", .str "FeatureCollection"), ("features", .arr [feat9])]

/-- A feature with a missing `properties` key (its validation messages
embed the feature's index). -/
def featBad : JVal := .obj [("type", .str "Feature")]

/-- `featBad` as the only feature (index 0). -/
def docA : JVal := .obj [("type", .str "FeatureCollection"), ("features", .arr [featBad])]

/-- The same `featBad` value as the second feature (index 1). -/
def docB : JVal :=
  .obj [("type", .str "FeatureCollection"), ("features", .arr [feat7, featBad])]

/-- The single per-plot result produced for `docA` (feature `featBad` at
index 0): failing verdict with index-tagged messages and the
index-derived fallback display name. -/
def plotA : List PerPlotValidationResult :=
  [⟨.str ("Feature 0"), .str (""), false,
    ["Feature 0: \x27properties\x27 must be an object or null"],
    [⟨"Feature 0 type", true, "Feature 0 type is \x27Feature\x27"⟩,
     ⟨"Feature 0 properties", false,
      "Feature 0: \x27properties\x27 must be an object or null"⟩]⟩]

theorem QJ.dpos_q (a : QJ) : (0 : ℚ) < (a.d : ℚ) := by exact_mod_cast a.hd

theorem QJ.ltB_iff (a b : QJ) : a.ltB b = true ↔ a.toQ < b.toQ := by
  rw [QJ.ltB, QJ.toQ, QJ.toQ, div_lt_div_iff₀ a.dpos_q b.dpos_q]
  constructor
  · intro h; exact_mod_cast of_decide_eq_true h
  · intro h; exact decide_eq_true (by exact_mod_cast h)

theorem QJ.eqB_iff (a b : QJ) : a.eqB b = true ↔ a.toQ = b.toQ := by
  rw [QJ.eqB, QJ.toQ, QJ.toQ, div_eq_div_iff (ne_of_gt a.dpos_q) (ne_of_gt b.dpos_q)]
  rw [beq_iff_eq]
  constructor
  · intro h; exact_mod_cast h
  · intro h; exact_mod_cast h

theorem QJ.sub_toQ (a b : QJ) : (a.sub b).toQ = a.toQ - b.toQ := by
  have hda := ne_of_gt a.dpos_q
  have hdb := ne_of_gt b.dpos_q
  rw [QJ.sub, QJ.toQ, QJ.toQ, QJ.toQ]
  push_cast
  field_simp
  ring

theorem QJ.add_toQ (a b : QJ) : (a.add b).toQ = a.toQ + b.toQ := by
  have hda := ne_of_gt a.dpos_q
  have hdb := ne_of_gt b.dpos_q
  rw [QJ.add, QJ.toQ, QJ.toQ, QJ.toQ]
  push_cast
  field_simp

theorem QJ.mul_toQ (a b : QJ) : (a.mul b).toQ = a.toQ * b.toQ := by
  have hda := ne_of_gt a.dpos_q
  have hdb := ne_of_gt b.dpos_q
  rw [QJ.mul, QJ.toQ, QJ.toQ, QJ.toQ]
  push_cast
  field_simp

theorem QJ.int_toQ (k : ℤ) : (QJ.int k).toQ = (k : ℚ) := by
  simp [QJ.int, QJ.toQ]

theorem jsRoundInt_eq_floor (a : QJ) : jsRoundInt a = ⌊a.toQ + 1/2⌋ := by
  have hd2 : (0:ℤ) < 2 * a.d := by have := a.hd; omega
  have htn : (((2 * a.d).toNat : ℤ)) = 2 * a.d := Int.toNat_of_nonneg hd2.le
  have hcast : (((2 * a.d).toNat : ℕ) : ℚ) = ((2 * a.d : ℤ) : ℚ) := by exact_mod_cast htn
  have h1 : a.toQ + 1/2 = ((2 * a.n + a.d : ℤ) : ℚ) / (((2 * a.d).toNat : ℕ) : ℚ) := by
    rw [hcast, QJ.toQ]
    have hdq : (a.d : ℚ) ≠ 0 := ne_of_gt a.dpos_q
    push_cast
    field_simp
    ring
  rw [h1, Rat.floor_intCast_div_natCast, htn, jsRoundInt]

theorem except_bind_ok {α β : Type} {e : Except JErr α} {f : α → Except JErr β} {b : β}
    (h : (e >>= f) = .ok b) : ∃ a, e = .ok a ∧ f a = .ok b := by
  cases e with
  | ok a => exact ⟨a, rfl, h⟩
  | error err => exact Except.noConfusion h

theorem stepsExtend_refl (r : ValidationResultWithSteps) : StepsExtend r r := by
  refine ⟨[], [], by simp, by simp, by simp, by simp⟩

theorem stepsExtend_trans {r r' r'' : ValidationResultWithSteps}
    (h1 : StepsExtend r r') (h2 : StepsExtend r' r'') : StepsExtend r r'' := by
  obtain ⟨es1, ss1, he1, hs1, hv1, hp1⟩ := h1
  obtain ⟨es2, ss2, he2, hs2, hv2, hp2⟩ := h2
  refine ⟨es1 ++ es2, ss1 ++ ss2, by rw [he2, he1, List.append_assoc],
    by rw [hs2, hs1, List.append_assoc], ?_, ?_⟩
  · rw [hv2, hv1]
    cases r.isValid <;> cases es1 <;> simp_all
  · rw [List.append_eq_nil, List.all_append]
    constructor
    · rintro ⟨a, b⟩
      rw [hp1.mp a, hp2.mp b]; simp
    · intro h
      simp only [Bool.and_eq_true] at h
      exact ⟨hp1.mpr h.1, hp2.mpr h.2⟩

theorem stepsExtend_addStep_true (r : ValidationResultWithSteps) (rule msg : String) :
    StepsExtend r (GeoSteps.addStep r rule true msg) := by
  refine ⟨[], [⟨rule, true, msg⟩], by simp [GeoSteps.addStep], by simp [GeoSteps.addStep],
    by simp [GeoSteps.addStep], by simp⟩

theorem stepsExtend_fail (r : ValidationResultWithSteps) (rule m1 m2 : String) :
    StepsExtend r (GeoSteps.addError (GeoSteps.addStep r rule false m1) m2) := by
  refine ⟨[m2], [⟨rule, false, m1⟩], by simp [GeoSteps.addStep, GeoSteps.addError],
    by simp [GeoSteps.addStep, GeoSteps.addError],
    by simp [GeoSteps.addStep, GeoSteps.addError], by simp⟩

theorem stepsExtend_branch (r : ValidationResultWithSteps) (cond : Prop) [Decidable cond]
    (rule m1 m2 rule' m3 : String) :
    StepsExtend r (if cond then GeoSteps.addError (GeoSteps.addStep r rule false m1) m2
      else GeoSteps.addStep r rule' true m3) := by
  split
  · exact stepsExtend_fail _ _ _ _
  · exact stepsExtend_addStep_true _ _ _

theorem coordW_extends (coord : JVal) (fi ri pi : ℕ) (r : ValidationResultWithSteps) :
    StepsExtend r (GeoSteps.validateCoordinateWithSteps coord fi ri pi r) := by
  unfold GeoSteps.validateCoordinateWithSteps
  cases coord with
  | arr xs =>
      dsimp only
      split
      · exact stepsExtend_fail _ _ _ _
      · exact stepsExtend_trans (stepsExtend_addStep_true r _ _)
          (stepsExtend_trans (stepsExtend_branch _ _ _ _ _ _ _)
            (stepsExtend_branch _ _ _ _ _ _ _))
  | null => exact stepsExtend_fail _ _ _ _
  | undef => exact stepsExtend_fail _ _ _ _
  | bool b => exact stepsExtend_fail _ _ _ _
  | num q => exact stepsExtend_fail _ _ _ _
  | str s => exact stepsExtend_fail _ _ _ _
  | obj fs => exact stepsExtend_fail _ _ _ _

theorem dupW_extends (pts : List JVal) (fi : ℕ) :
    ∀ (idxs : List ℕ) (r r' : ValidationResultWithSteps),
      GeoSteps.dupPointsLoop pts fi idxs r = .ok r' → StepsExtend r r' := by
  intro idxs
  induction idxs with
  | nil =>
      intro r r' h
      simp only [GeoSteps.dupPointsLoop] at h
      exact Except.ok.inj h ▸ stepsExtend_refl r
  | cons i rest ih =>
      intro r r' h
      simp only [GeoSteps.dupPointsLoop] at h
      obtain ⟨eq, h1, h2⟩ := except_bind_ok h
      refine stepsExtend_trans ?_ (ih _ _ h2)
      split
      · exact stepsExtend_fail _ _ _ _
      · exact stepsExtend_refl _

theorem zeroW_extends (pts : List JVal) (fi : ℕ) :
    ∀ (idxs : List ℕ) (r r' : ValidationResultWithSteps),
      GeoSteps.zeroLengthLoop pts fi idxs r = .ok r' → StepsExtend r r' := by
  intro idxs
  induction idxs with
  | nil =>
      intro r r' h
      simp only [GeoSteps.zeroLengthLoop] at h
      exact Except.ok.inj h ▸ stepsExtend_refl r
  | cons i rest ih =>
      intro r r' h
      simp only [GeoSteps.zeroLengthLoop] at h
      obtain ⟨eq, h1, h2⟩ := except_bind_ok h
      refine stepsExtend_trans ?_ (ih _ _ h2)
      split
      · exact stepsExtend_fail _ _ _ _
      · exact stepsExtend_refl _

theorem coordLoopW_extends (fi ri : ℕ) :
    ∀ (l : List (ℕ × JVal)) (r : ValidationResultWithSteps),
      StepsExtend r (GeoSteps.coordLoop fi ri l r) := by
  intro l
  induction l with
  | nil => intro r; simp only [GeoSteps.coordLoop]; exact stepsExtend_refl r
  | cons p rest ih =>
      intro r
      obtain ⟨pointIndex, coord⟩ := p
      simp only [GeoSteps.coordLoop]
      exact stepsExtend_trans (coordW_extends coord fi ri pointIndex r) (ih _)

theorem siW_extends (ring : List JVal) (fi : ℕ) (r r' : ValidationResultWithSteps)
    (h : GeoSteps.checkSelfIntersectionsWithSteps ring fi r = .ok r') : StepsExtend r r' := by
  unfold GeoSteps.checkSelfIntersectionsWithSteps at h
  obtain ⟨found, h1, h2⟩ := except_bind_ok h
  split at h2
  · exact Except.ok.inj h2 ▸ stepsExtend_fail _ _ _ _
  · exact Except.ok.inj h2 ▸ stepsExtend_addStep_true _ _ _

theorem spikesLoopW_extends (pts : List JVal) (fi : ℕ) :
    ∀ (idxs : List ℕ) (r : ValidationResultWithSteps) (found : Bool)
      (r' : ValidationResultWithSteps) (found' : Bool),
      GeoSteps.spikesLoop pts fi idxs r found = .ok (r', found') → StepsExtend r r' := by
  intro idxs
  induction idxs with
  | nil =>
      intro r found r' found' h
      simp only [GeoSteps.spikesLoop] at h
      have heq := Except.ok.inj h
      injection heq with hr hf
      exact hr ▸ stepsExtend_refl r
  | cons i rest ih =>
      intro r found r' found' h
      simp only [GeoSteps.spikesLoop] at h
      obtain ⟨sp, h1, h2⟩ := except_bind_ok h
      split at h2
      · exact stepsExtend_trans (stepsExtend_fail _ _ _ _) (ih _ _ _ _ h2)
      · exact ih _ _ _ _ h2

theorem spikesW_extends (ring : List JVal) (fi : ℕ) (r r' : ValidationResultWithSteps)
    (h : GeoSteps.checkForSpikesWithSteps ring fi r = .ok r') : StepsExtend r r' := by
  unfold GeoSteps.checkForSpikesWithSteps at h
  obtain ⟨rf, h1, h2⟩ := except_bind_ok h
  have hbase := spikesLoopW_extends ring fi _ r false rf.1 rf.2 (by rw [h1])
  split at h2
  · exact stepsExtend_trans hbase (Except.ok.inj h2 ▸ stepsExtend_addStep_true _ _ _)
  · exact Except.ok.inj h2 ▸ hbase

theorem eslW_extends (ring : List JVal) (fi : ℕ) (r r' : ValidationResultWithSteps)
    (h : GeoSteps.checkExcessiveStraightLinesWithSteps ring fi r = .ok r') : StepsExtend r r' := by
  unfold GeoSteps.checkExcessiveStraightLinesWithSteps at h
  obtain ⟨tri, h1, h2⟩ := except_bind_ok h
  split at h2
  · exact Except.ok.inj h2 ▸ stepsExtend_addStep_true _ _ _
  · split at h2
    · exact Except.ok.inj h2 ▸ stepsExtend_fail _ _ _ _
    · exact Except.ok.inj h2 ▸ stepsExtend_addStep_true _ _ _

theorem ringW_extends (ring : JVal) (fi ri : ℕ) (r r' : ValidationResultWithSteps)
    (h : GeoSteps.validateRingWithSteps ring fi ri r = .ok r') : StepsExtend r r' := by
  unfold GeoSteps.validateRingWithSteps at h
  cases ring with
  | arr pts =>
      try dsimp only at h
      split at h
      · exact Except.ok.inj h ▸ stepsExtend_trans (stepsExtend_addStep_true _ _ _)
          (stepsExtend_fail _ _ _ _)
      · obtain ⟨closed, hc, h2⟩ := except_bind_ok h
        try dsimp only at h2
        obtain ⟨r2, hd, h3⟩ := except_bind_ok h2
        obtain ⟨r3, hz, h4⟩ := except_bind_ok h3
        obtain ⟨r4, hsi, h5⟩ := except_bind_ok h4
        obtain ⟨r5, hsp, h6⟩ := except_bind_ok h5
        refine stepsExtend_trans ?_
          (stepsExtend_trans (dupW_extends pts fi _ _ _ hd)
            (stepsExtend_trans (zeroW_extends pts fi _ _ _ hz)
              (stepsExtend_trans (coordLoopW_extends fi ri pts.enum _)
                (stepsExtend_trans (siW_extends pts fi _ _ hsi)
                  (stepsExtend_trans (spikesW_extends pts fi _ _ hsp)
                    (eslW_extends pts fi _ _ h6))))))
        split
        · exact stepsExtend_trans (stepsExtend_addStep_true _ _ _)
            (stepsExtend_trans (stepsExtend_addStep_true _ _ _) (stepsExtend_fail _ _ _ _))
        · exact stepsExtend_trans (stepsExtend_addStep_true _ _ _)
            (stepsExtend_trans (stepsExtend_addStep_true _ _ _) (stepsExtend_addStep_true _ _ _))
  | null => exact Except.ok.inj h ▸ stepsExtend_fail _ _ _ _
  | undef => exact Except.ok.inj h ▸ stepsExtend_fail _ _ _ _
  | bool b => exact Except.ok.inj h ▸ stepsExtend_fail _ _ _ _
  | num q => exact Except.ok.inj h ▸ stepsExtend_fail _ _ _ _
  | str s => exact Except.ok.inj h ▸ stepsExtend_fail _ _ _ _
  | obj fs => exact Except.ok.inj h ▸ stepsExtend_fail _ _ _ _

theorem polyW_extends (cs : List JVal) (fi : ℕ) (r r' : ValidationResultWithSteps)
    (h : GeoSteps.validatePolygonCoordinatesWithSteps cs fi r = .ok r') : StepsExtend r r' := by
  unfold GeoSteps.validatePolygonCoordinatesWithSteps at h
  try dsimp only at h
  split at h
  · exact Except.ok.inj h ▸ stepsExtend_fail _ _ _ _
  · split at h
    · exact Except.ok.inj h ▸ stepsExtend_trans (stepsExtend_addStep_true _ _ _)
        (stepsExtend_fail _ _ _ _)
    · exact stepsExtend_trans (stepsExtend_addStep_true _ _ _)
        (stepsExtend_trans (stepsExtend_addStep_true _ _ _) (ringW_extends _ _ _ _ _ h))

theorem geomW_extends (geometry : JVal) (fi : ℕ) (r r' : ValidationResultWithSteps)
    (h : GeoSteps.validateGeometryWithSteps geometry fi r = .ok r') : StepsExtend r r' := by
  unfold GeoSteps.validateGeometryWithSteps at h
  obtain ⟨gtype, h1, h2⟩ := except_bind_ok h
  try dsimp only at h2
  split at h2
  · exact Except.ok.inj h2 ▸ stepsExtend_fail _ _ _ _
  · split at h2
    · exact Except.ok.inj h2 ▸ stepsExtend_trans (stepsExtend_addStep_true _ _ _)
        (stepsExtend_fail _ _ _ _)
    · obtain ⟨coords, h3, h4⟩ := except_bind_ok h2
      split at h4
      · exact stepsExtend_trans (stepsExtend_addStep_true _ _ _)
          (stepsExtend_trans (stepsExtend_addStep_true _ _ _) (polyW_extends _ _ _ _ h4))
      · exact Except.ok.inj h4 ▸ stepsExtend_trans (stepsExtend_addStep_true _ _ _)
          (stepsExtend_fail _ _ _ _)

theorem reqW_extends (feature : JVal) (index : ℕ) :
    ∀ (props : List String) (r r' : ValidationResultWithSteps),
      GeoSteps.requiredPropsLoop feature index props r = .ok r' → StepsExtend r r' := by
  intro props
  induction props with
  | nil =>
      intro r r' h
      simp only [GeoSteps.requiredPropsLoop] at h
      exact Except.ok.inj h ▸ stepsExtend_refl r
  | cons prop rest ih =>
      intro r r' h
      simp only [GeoSteps.requiredPropsLoop] at h
      obtain ⟨props0, h1, h2⟩ := except_bind_ok h
      obtain ⟨missing, hm, h3⟩ := except_bind_ok h2
      refine stepsExtend_trans ?_ (ih _ _ h3)
      split
      · exact stepsExtend_fail _ _ _ _
      · exact stepsExtend_addStep_true _ _ _

theorem featW_extends (feature : JVal) (index : ℕ) (r r' : ValidationResultWithSteps)
    (h : GeoSteps.validateFeatureWithSteps feature index r = .ok r') : StepsExtend r r' := by
  unfold GeoSteps.validateFeatureWithSteps at h
  obtain ⟨ftype, h1, h2⟩ := except_bind_ok h
  try dsimp only at h2
  split at h2
  · exact Except.ok.inj h2 ▸ stepsExtend_fail _ _ _ _
  · obtain ⟨hasP, h3, h4⟩ := except_bind_ok h2
    obtain ⟨props, h5, h6⟩ := except_bind_ok h4
    split at h6
    · exact Except.ok.inj h6 ▸ stepsExtend_trans (stepsExtend_addStep_true _ _ _)
        (stepsExtend_fail _ _ _ _)
    · obtain ⟨r2, hreq, h7⟩ := except_bind_ok h6
      obtain ⟨props2, h8, h9⟩ := except_bind_ok h7
      obtain ⟨hasArea, h10, h11⟩ := except_bind_ok h9
      have hPre : StepsExtend r r2 :=
        stepsExtend_trans (stepsExtend_trans (stepsExtend_addStep_true _ _ _)
          (stepsExtend_addStep_true _ _ _)) (reqW_extends _ _ _ _ _ hreq)
      split at h11
      · obtain ⟨area, hA1, hA2⟩ := except_bind_ok h11
        split at hA2
        · obtain ⟨y, hy, h12⟩ := except_bind_ok hA2
          obtain rfl := Except.ok.inj hy
          obtain ⟨hasG, h13, h14⟩ := except_bind_ok h12
          obtain ⟨geom, h15, h16⟩ := except_bind_ok h14
          split at h16
          · exact stepsExtend_trans hPre (stepsExtend_trans (stepsExtend_fail _ _ _ _)
              (Except.ok.inj h16 ▸ stepsExtend_fail _ _ _ _))
          · split at h16
            · exact stepsExtend_trans hPre (stepsExtend_trans (stepsExtend_fail _ _ _ _)
                (Except.ok.inj h16 ▸ stepsExtend_addStep_true _ _ _))
            · exact stepsExtend_trans hPre (stepsExtend_trans (stepsExtend_fail _ _ _ _)
                (geomW_extends _ _ _ _ h16))
        · obtain ⟨y, hy, h12⟩ := except_bind_ok hA2
          obtain rfl := Except.ok.inj hy
          obtain ⟨hasG, h13, h14⟩ := except_bind_ok h12
          obtain ⟨geom, h15, h16⟩ := except_bind_ok h14
          split at h16
          · exact stepsExtend_trans hPre (stepsExtend_trans (stepsExtend_addStep_true _ _ _)
              (Except.ok.inj h16 ▸ stepsExtend_fail _ _ _ _))
          · split at h16
            · exact stepsExtend_trans hPre (stepsExtend_trans (stepsExtend_addStep_true _ _ _)
                (Except.ok.inj h16 ▸ stepsExtend_addStep_true _ _ _))
            · exact stepsExtend_trans hPre (stepsExtend_trans (stepsExtend_addStep_true _ _ _)
                (geomW_extends _ _ _ _ h16))
      · obtain ⟨y, hy, h12⟩ := except_bind_ok h11
        obtain rfl := Except.ok.inj hy
        obtain ⟨hasG, h13, h14⟩ := except_bind_ok h12
        obtain ⟨geom, h15, h16⟩ := except_bind_ok h14
        split at h16
        · exact stepsExtend_trans hPre (Except.ok.inj h16 ▸ stepsExtend_fail _ _ _ _)
        · split at h16
          · exact stepsExtend_trans hPre (Except.ok.inj h16 ▸ stepsExtend_addStep_true _ _ _)
          · exact stepsExtend_trans hPre (geomW_extends _ _ _ _ h16)

theorem featuresLoopW_extends :
    ∀ (fs : List JVal) (index : ℕ) (r r' : ValidationResultWithSteps),
      GeoSteps.featuresLoop fs index r = .ok r' → StepsExtend r r' := by
  intro fs
  induction fs with
  | nil =>
      intro index r r' h
      simp only [GeoSteps.featuresLoop] at h
      exact Except.ok.inj h ▸ stepsExtend_refl r
  | cons f rest ih =>
      intro index r r' h
      simp only [GeoSteps.featuresLoop] at h
      obtain ⟨r2, h1, h2⟩ := except_bind_ok h
      exact stepsExtend_trans (featW_extends _ _ _ _ h1) (ih _ _ _ h2)

theorem topW_extends (geojson : JVal) (r' : ValidationResultWithSteps)
    (h : GeoSteps.validateGeoJSONWithSteps geojson = .ok r') :
    StepsExtend GeoSteps.emptyResults r' := by
  unfold GeoSteps.validateGeoJSONWithSteps at h
  try dsimp only at h
  split at h
  · exact Except.ok.inj h ▸ stepsExtend_fail _ _ _ _
  · obtain ⟨t, h1, h2⟩ := except_bind_ok h
    split at h2
    · exact Except.ok.inj h2 ▸ stepsExtend_fail _ _ _ _
    · obtain ⟨fs, h3, h4⟩ := except_bind_ok h2
      split at h4
      · split at h4
        · exact Except.ok.inj h4 ▸ stepsExtend_trans (stepsExtend_addStep_true _ _ _)
            (stepsExtend_fail _ _ _ _)
        · exact stepsExtend_trans (stepsExtend_addStep_true _ _ _)
            (stepsExtend_trans (stepsExtend_addStep_true _ _ _)
              (featuresLoopW_extends _ _ _ _ h4))
      · exact Except.ok.inj h4 ▸ stepsExtend_trans (stepsExtend_addStep_true _ _ _)
          (stepsExtend_fail _ _ _ _)

/-- C4: for every result returned by `validateGeoJSONWithSteps`,
`isValid` is true if and only if no failing step was recorded,
equivalently if and only if the errors list is empty; and accumulation
is monotone: a feature-level validation pass never turns an already
false `isValid` back to true. -/
theorem C4_isValid_iff_no_failing_step :
    (∀ (doc : JVal) (r : ValidationResultWithSteps),
        GeoSteps.validateGeoJSONWithSteps doc = .ok r →
        ((r.isValid = true ↔ r.errors = []) ∧
         (r.isValid = true ↔ r.steps.all (fun s => s.passed) = true))) ∧
    (∀ (f : JVal) (i : ℕ) (r r' : ValidationResultWithSteps),
        GeoSteps.validateFeatureWithSteps f i r = .ok r' →
        r.isValid = false → r'.isValid = false) := by
  constructor
  · intro doc r h
    obtain ⟨es, ss, he, hs, hv, hp⟩ := topW_extends doc r h
    have he' : r.errors = es := by simpa [GeoSteps.emptyResults] using he
    have hs' : r.steps = ss := by simpa [GeoSteps.emptyResults] using hs
    have hv' : r.isValid = es.isEmpty := by simpa [GeoSteps.emptyResults] using hv
    constructor
    · rw [hv', he']
      cases es <;> simp
    · rw [hv', hs', ← hp]
      cases es <;> simp
  · intro f i r r' h hfalse
    obtain ⟨es, ss, he, hs, hv, hp⟩ := featW_extends f i r r' h
    rw [hv, hfalse]
    simp

theorem C4_isValid_iff_no_failing_step_witness :
    ((false : Bool) = true ↔ (["\x27features\x27 must be a non-empty array"] : List String) = []) ∧
    ((false : Bool) = true ↔
      (([⟨"Root type", true, "Root type is \x27FeatureCollection\x27"⟩,
         ⟨"Features array", false, "\x27features\x27 must be a non-empty array"⟩] :
        List ValidationStep).all (fun s => s.passed) = true)) :=
  C4_isValid_iff_no_failing_step.1 docEmpty
    ⟨false, ["\x27features\x27 must be a non-empty array"],
      [⟨"Root type", true, "Root type is \x27FeatureCollection\x27"⟩,
       ⟨"Features array", false, "\x27features\x27 must be a non-empty array"⟩]⟩ rfl

/-- C7: the concrete document
`{"type":"FeatureCollection","features":[{...,"area":1.5,
"geometry":{"type":"Polygon","coordinates":[[[0,0],[0,1],[1,1],[1,0],[0,0]]]}}]}`
is judged valid with an empty error list by both entry points. -/
theorem C7_concrete_valid_document :
    ((GeoSteps.validateGeoJSONWithSteps doc7).map (fun r => (r.isValid, r.errors))
      = .ok (true, [])) ∧
    GeoPlain.validateGeoJSON doc7 = .ok ⟨true, []⟩ := by
  exact ⟨rfl, rfl⟩

/-- C10: on `{"type":"FeatureCollection","features":[]}` the two entry
points disagree: `validateAllPlotsWithSteps` returns the empty sequence
(its root guard does not require `features` to be non-empty), while
`validateGeoJSONWithSteps` returns `isValid = false` with a failing
"Features array" step. -/
theorem C10_empty_features_disagreement :
    GeoSteps.validateAllPlotsWithSteps docEmpty = .ok [] ∧
    GeoSteps.validateGeoJSONWithSteps docEmpty =
      .ok ⟨false, ["\x27features\x27 must be a non-empty array"],
        [⟨"Root type", true, "Root type is \x27FeatureCollection\x27"⟩,
         ⟨"Features array", false, "\x27features\x27 must be a non-empty array"⟩]⟩ := by
  exact ⟨rfl, rfl⟩

/-- C1 (failing input): contrary to the specification's "never throws",
all three entry points raise a `TypeError` on a features array
containing `null` (reading `feature.type` of `null`), and both feature
validators raise a `TypeError` on a feature whose `properties` is
`null` (evaluating `"area" in feature.properties`). -/
theorem C1_throws_on_malformed_input :
    GeoSteps.validateGeoJSONWithSteps docNull =
      .error (.typeError "Cannot read properties of null (reading type)") ∧
    GeoPlain.validateGeoJSON docNull =
      .error (.typeError "Cannot read properties of null (reading type)") ∧
    GeoSteps.validateAllPlotsWithSteps docNull =
      .error (.typeError "Cannot read properties of null (reading type)") ∧
    GeoSteps.validateGeoJSONWithSteps docPN =
      .error (.typeError "Cannot use in operator to search for area in object") ∧
    GeoPlain.validateGeoJSON docPN =
      .error (.typeError "Cannot use in operator to search for area in object") ∧
    GeoSteps.validateAllPlotsWithSteps docPN =
      .error (.typeError "Cannot use in operator to search for area in object") := by
  exact ⟨rfl, rfl, rfl, rfl, rfl, rfl⟩

theorem numListEq_iff (xs ys : List QJ) :
    (((xs.map JVal.num).length == (ys.map JVal.num).length &&
      (((xs.map JVal.num).zip (ys.map JVal.num)).all (fun ab => jsEq ab.1 ab.2))) = true)
    ↔ xs.map QJ.toQ = ys.map QJ.toQ := by
  induction xs generalizing ys with
  | nil => cases ys <;> simp
  | cons a as ih =>
      cases ys with
      | nil => simp
      | cons b bs =>
          have hj : jsEq (JVal.num a) (JVal.num b) = a.eqB b := rfl
          simp only [List.map_cons, List.zip_cons_cons, List.all_cons, List.length_cons, hj,
            Bool.and_eq_true, beq_iff_eq, List.cons.injEq, Nat.add_right_cancel_iff, QJ.eqB_iff]
          rw [← ih bs]
          simp only [Bool.and_eq_true, beq_iff_eq]
          tauto

theorem numListEq (xs ys : List QJ) :
    ((xs.map JVal.num).length == (ys.map JVal.num).length &&
      (((xs.map JVal.num).zip (ys.map JVal.num)).all (fun ab => jsEq ab.1 ab.2)))
    = decide (xs.map QJ.toQ = ys.map QJ.toQ) := by
  rw [Bool.eq_iff_iff, numListEq_iff]
  simp

theorem stepsPointsEqual_rounds (p q : List QJ) :
    GeoSteps.pointsEqual (posJl p) (posJl q) =
      .ok (decide (p.map (fun x => (round6 x).toQ) = q.map (fun x => (round6 x).toQ))) := by
  have hmap : ∀ (l : List QJ),
      (l.map JVal.num).map (fun v => match v with
        | JVal.num q => JVal.num (round6 q)
        | w => w) = (l.map round6).map JVal.num := by
    intro l
    induction l with
    | nil => rfl
    | cons x xs ih => simp only [List.map_cons, ih]
  have hrc : ∀ (l : List QJ), GeoSteps.roundCoord (posJl l) =
      pure (.arr ((l.map round6).map JVal.num)) := by
    intro l
    simp only [posJl, GeoSteps.roundCoord, hmap l]
  unfold GeoSteps.pointsEqual
  rw [hrc p, hrc q]
  show Except.ok _ = _
  rw [numListEq (p.map round6) (q.map round6), List.map_map, List.map_map]
  rfl

theorem everyEqAux_num (q : List QJ) :
    ∀ (as : List QJ) (i : ℕ),
      GeoPlain.everyEqAux (posJl q) (as.map JVal.num) i =
        .ok (decide (as.map QJ.toQ = (((q.drop i).take as.length).map QJ.toQ))) := by
  intro as
  induction as with
  | nil =>
      intro i
      show Except.ok true = _
      simp
  | cons a as ih =>
      intro i
      simp only [List.map_cons, GeoPlain.everyEqAux]
      have hidx : getIdxNat (posJl q) i = pure ((q.map JVal.num).getD i JVal.undef) := rfl
      rw [hidx]
      show (if jsEq (JVal.num a) ((q.map JVal.num).getD i JVal.undef) = true then
          GeoPlain.everyEqAux (posJl q) (as.map JVal.num) (i+1) else pure false) = _
      by_cases hi : i < q.length
      · have hq : (q.map JVal.num).getD i JVal.undef = JVal.num (q.getD i (QJ.int 0)) := by
          rw [List.getD_eq_getElem?_getD, List.getD_eq_getElem?_getD, List.getElem?_map]
          have hsome : q[i]? = some (q.getD i (QJ.int 0)) := by
            rw [List.getD_eq_getElem?_getD, List.getElem?_eq_getElem hi]
            rfl
          rw [hsome]
          rfl
        have hdrop : q.drop i = q.getD i (QJ.int 0) :: q.drop (i+1) := by
          rw [List.drop_eq_getElem_cons hi]
          congr 1
          rw [List.getD_eq_getElem?_getD, List.getElem?_eq_getElem hi]
          rfl
        rw [hq, hdrop]
        have hj : jsEq (JVal.num a) (JVal.num (q.getD i (QJ.int 0))) = a.eqB (q.getD i (QJ.int 0)) := rfl
        rw [hj]
        by_cases hab : a.toQ = (q.getD i (QJ.int 0)).toQ
        · rw [if_pos ((QJ.eqB_iff _ _).mpr hab), ih (i+1)]
          simp [hab, List.take_succ_cons]
        · rw [if_neg (fun hc => hab ((QJ.eqB_iff _ _).mp hc))]
          show Except.ok false = _
          congr 1
          symm
          rw [decide_eq_false_iff_not]
          simp only [List.length_cons, List.take_succ_cons, List.map_cons]
          intro hc
          injection hc with h1 h2
          exact hab h1
      · have hq : (q.map JVal.num).getD i JVal.undef = JVal.undef := by
          rw [List.getD_eq_getElem?_getD, List.getElem?_eq_none_iff.mpr (by simpa using hi)]
          rfl
        have hdrop : q.drop i = ([] : List QJ) := List.drop_eq_nil_of_le (by omega)
        rw [hq, hdrop]
        show Except.ok false = _
        simp

theorem plainPointsEqual_exact (p q : List QJ) :
    GeoPlain.pointsEqual (posJl p) (posJl q) = .ok (decide (p.map QJ.toQ = q.map QJ.toQ)) := by
  show (if jsEq (JVal.num (QJ.int ((p.map JVal.num).length : ℤ)))
      (JVal.num (QJ.int ((q.map JVal.num).length : ℤ))) = true then
      GeoPlain.everyEqAux (posJl q) (p.map JVal.num) 0 else pure false) = _
  have hlen : jsEq (JVal.num (QJ.int ((p.map JVal.num).length : ℤ)))
      (JVal.num (QJ.int ((q.map JVal.num).length : ℤ))) = (decide (p.length = q.length)) := by
    show (QJ.int _).eqB (QJ.int _) = _
    rw [Bool.eq_iff_iff, QJ.eqB_iff, QJ.int_toQ, QJ.int_toQ]
    simp [List.length_map]
  rw [hlen]
  by_cases hl : p.length = q.length
  · rw [if_pos (by simpa using hl), everyEqAux_num q p 0]
    congr 2
    rw [List.drop_zero, hl, List.take_length]
  · rw [if_neg (by simpa using hl)]
    show Except.ok false = _
    congr 1
    symm
    rw [decide_eq_false_iff_not]
    intro hc
    exact hl (by simpa using congrArg List.length hc)

/-- C2 (amended): the closure comparison is tolerance-rounded ONLY in
the diagnostics engine — its `pointsEqual` rounds every coordinate to 6
decimal places before element-wise comparison — while the plain
engine's `pointsEqual` compares exactly, with no rounding; in both
engines a closure failure is recorded without short-circuiting the
remaining ring checks (on `ringC2b` the plain engine records both the
closure violation and the later precision violation of position 2, and
on `ringOpen4` the steps engine records both the failing closure step
and a later failing step). -/
theorem C2_closure_tolerance_amended :
    (∀ p q : List QJ, GeoSteps.pointsEqual (posJl p) (posJl q) =
      .ok (decide (p.map (fun x => (round6 x).toQ) = q.map (fun x => (round6 x).toQ)))) ∧
    (∀ p q : List QJ, GeoPlain.pointsEqual (posJl p) (posJl q) =
      .ok (decide (p.map QJ.toQ = q.map QJ.toQ))) ∧
    ((GeoSteps.validateRingWithSteps ringC2 0 0 GeoSteps.emptyResults).map
      (fun r => decide ((⟨"Feature 0 ring closure", true, "Feature 0: Ring is closed"⟩ :
        ValidationStep) ∈ r.steps)) = .ok true) ∧
    ((GeoPlain.validateRing ringC2 0 0 GeoPlain.emptyResults).map
      (fun r => decide ("Feature 0: Ring must be closed (first/last points identical)" ∈ r.errors))
      = .ok true) ∧
    ((GeoPlain.validateRing ringC2b 0 0 GeoPlain.emptyResults).map
      (fun r => (decide ("Feature 0: Ring must be closed (first/last points identical)" ∈ r.errors),
                 decide ("Feature 0 Point 2: Excessive coordinate precision" ∈ r.errors)))
      = .ok (true, true)) ∧
    ((GeoSteps.validateRingWithSteps ringOpen4 0 0 GeoSteps.emptyResults).map
      (fun r => (decide ((⟨"Feature 0 ring closure", false,
          "Feature 0: Ring must be closed (first/last points identical)"⟩ :
          ValidationStep) ∈ r.steps),
        decide ((⟨"Feature 0 straight lines", false,
          "Feature 0: Polygon may have excessive straight lines (not enough points for curves)"⟩ :
          ValidationStep) ∈ r.steps))) = .ok (true, true)) := by
  exact ⟨stepsPointsEqual_rounds, plainPointsEqual_exact, rfl, rfl, rfl, rfl⟩

/-- C2 (counterexample): on the ring whose first and last positions
differ only in the seventh decimal place, the plain engine records a
closure violation (the claim asserts both engines judge such a ring
closed), while the diagnostics engine judges it closed. -/
theorem C2_counterexample :
    ((GeoPlain.validateRing ringC2 0 0 GeoPlain.emptyResults).map
      (fun r => decide ("Feature 0: Ring must be closed (first/last points identical)" ∈ r.errors))
      = .ok true) ∧
    ((GeoSteps.validateRingWithSteps ringC2 0 0 GeoSteps.emptyResults).map
      (fun r => decide ((⟨"Feature 0 ring closure", true, "Feature 0: Ring is closed"⟩ :
        ValidationStep) ∈ r.steps)) = .ok true) := by
  exact ⟨rfl, rfl⟩

theorem getD_map_JVal {α : Type} (f : α → JVal) (l : List α) (k : ℕ) (d : α) (h : k < l.length) :
    (l.map f).getD k JVal.undef = f (l.getD k d) := by
  rw [List.getD_eq_getElem?_getD, List.getElem?_map, List.getElem?_eq_getElem h,
    List.getD_eq_getElem?_getD, List.getElem?_eq_getElem h]
  rfl

theorem stepsESL_spec (ring : List (List QJ)) (fi : ℕ) (r : ValidationResultWithSteps) :
    GeoSteps.checkExcessiveStraightLinesWithSteps (ring.map posJl) fi r =
      .ok (if ring.length = 4 ∧ (ring.getD 0 []).map (fun x => (round6 x).toQ)
              = (ring.getD 3 []).map (fun x => (round6 x).toQ) then
          GeoSteps.addStep r (s!"Feature {fi} straight lines") true
            (s!"Feature {fi}: Polygon is a closed triangle (acceptable)")
        else if ring.length ≤ 4 then
          GeoSteps.addError (GeoSteps.addStep r (s!"Feature {fi} straight lines") false
            (s!"Feature {fi}: Polygon may have excessive straight lines (not enough points for curves)"))
            (s!"Feature {fi}: Polygon may have excessive straight lines (not enough points for curves)")
        else
          GeoSteps.addStep r (s!"Feature {fi} straight lines") true
            (s!"Feature {fi}: Polygon has enough points for curves")) := by
  unfold GeoSteps.checkExcessiveStraightLinesWithSteps
  rw [List.length_map]
  by_cases h4 : ring.length = 4
  · rw [if_pos (by simpa using h4)]
    rw [getD_map_JVal posJl ring 0 [] (by omega), h4, show (4:ℕ) - 1 = 3 from rfl,
      getD_map_JVal posJl ring 3 [] (by omega), stepsPointsEqual_rounds]
    by_cases hc : (ring.getD 0 []).map (fun x => (round6 x).toQ)
        = (ring.getD 3 []).map (fun x => (round6 x).toQ)
    · rw [decide_eq_true hc]
      show Except.ok _ = _
      rw [if_pos ⟨rfl, hc⟩]
    · rw [decide_eq_false hc]
      have hns : ¬((4:ℕ) = 4 ∧ (ring.getD 0 []).map (fun x => (round6 x).toQ)
          = (ring.getD 3 []).map (fun x => (round6 x).toQ)) := fun hand => hc hand.2
      show Except.ok _ = _
      rw [if_neg hns, if_pos (le_refl 4)]
  · rw [if_neg (by simpa using h4)]
    have hns : ¬(ring.length = 4 ∧ (ring.getD 0 []).map (fun x => (round6 x).toQ)
        = (ring.getD 3 []).map (fun x => (round6 x).toQ)) := fun hand => h4 hand.1
    rw [if_neg hns]
    by_cases hle : ring.length ≤ 4
    · rw [if_pos hle]
      simp only [if_pos hle]
      rfl
    · rw [if_neg hle]
      simp only [if_neg hle]
      rfl

/-- C3 (amended): the closed-triangle exemption of the
excessive-straight-lines heuristic exists ONLY in the diagnostics
engine: there, a ring of exactly 4 positions whose first and last
positions are tolerance-equal passes, any other ring of at most 4
positions fails with the insufficient-points message, and longer rings
pass; the plain engine has no exemption and fails every ring of at most
4 positions, including closed triangles. -/
theorem C3_straight_lines_amended :
    (∀ (ring : List (List QJ)) (fi : ℕ) (r : ValidationResultWithSteps),
      GeoSteps.checkExcessiveStraightLinesWithSteps (ring.map posJl) fi r =
        .ok (if ring.length = 4 ∧ (ring.getD 0 []).map (fun x => (round6 x).toQ)
                = (ring.getD 3 []).map (fun x => (round6 x).toQ) then
            GeoSteps.addStep r (s!"Feature {fi} straight lines") true
              (s!"Feature {fi}: Polygon is a closed triangle (acceptable)")
          else if ring.length ≤ 4 then
            GeoSteps.addError (GeoSteps.addStep r (s!"Feature {fi} straight lines") false
              (s!"Feature {fi}: Polygon may have excessive straight lines (not enough points for curves)"))
              (s!"Feature {fi}: Polygon may have excessive straight lines (not enough points for curves)")
          else
            GeoSteps.addStep r (s!"Feature {fi} straight lines") true
              (s!"Feature {fi}: Polygon has enough points for curves"))) ∧
    (∀ (ring : List JVal) (fi : ℕ) (r : ValidationResult),
      GeoPlain.checkExcessiveStraightLines ring fi r =
        if ring.length ≤ 4 then
          GeoPlain.addError r
            (s!"Feature {fi}: Polygon may have excessive straight lines (not enough points for curves)")
        else r) ∧
    ((GeoSteps.validateRingWithSteps ringTri 0 0 GeoSteps.emptyResults).map
      (fun r => (r.isValid, decide ((⟨"Feature 0 straight lines", true,
        "Feature 0: Polygon is a closed triangle (acceptable)"⟩ : ValidationStep) ∈ r.steps)))
      = .ok (true, true)) ∧
    GeoPlain.validateRing ringTri 0 0 GeoPlain.emptyResults =
      .ok ⟨false, ["Feature 0: Polygon may have excessive straight lines (not enough points for curves)"]⟩ := by
  refine ⟨stepsESL_spec, ?_, rfl, rfl⟩
  intro ring fi r
  rfl

/-- C3 (counterexample): on the closed triangle ring
`[[0,0],[4,0],[0,3],[0,0]]` the plain engine records the
excessive-straight-lines violation (the claim asserts both engines
exempt a closed 4-position ring), while the diagnostics engine passes
it. -/
theorem C3_counterexample :
    GeoPlain.validateRing ringTri 0 0 GeoPlain.emptyResults =
      .ok ⟨false, ["Feature 0: Polygon may have excessive straight lines (not enough points for curves)"]⟩ ∧
    ((GeoSteps.validateRingWithSteps ringTri 0 0 GeoSteps.emptyResults).map
      (fun r => decide ((⟨"Feature 0 straight lines", true,
        "Feature 0: Polygon is a closed triangle (acceptable)"⟩ : ValidationStep) ∈ r.steps))
      = .ok true) := by
  exact ⟨rfl, rfl⟩

theorem stepsShortRing_spec (pts : List JVal) (fi ri : ℕ) (r : ValidationResultWithSteps)
    (h : pts.length < 4) :
    GeoSteps.validateRingWithSteps (.arr pts) fi ri r =
      .ok (GeoSteps.addError (GeoSteps.addStep (GeoSteps.addStep r
          (s!"Feature {fi} ring array") true (s!"Feature {fi}: Ring is an array of positions"))
          (s!"Feature {fi} ring points") false (s!"Feature {fi}: Ring must have at least 4 points"))
        (s!"Feature {fi}: Ring must have at least 4 points")) := by
  unfold GeoSteps.validateRingWithSteps
  show (if pts.length < 4 then _ else _) = _
  rw [if_pos h]
  rfl

/-- C6 (amended): for every ring of fewer than 4 positions that reaches
the ring rule, the diagnostics engine returns `isValid = false` with
exactly the array-ness and minimum-size steps (so no self-intersection
or spike step or error); the plain engine, WHENEVER IT RETURNS NORMALLY,
returns `isValid = false` and adds at most the closure and minimum-size
messages (never a self-intersection or spike error) — but on the empty
ring the plain engine does not return at all (see the
counterexample). -/
theorem C6_short_ring_amended :
    (∀ (pts : List JVal) (fi ri : ℕ) (r : ValidationResultWithSteps), pts.length < 4 →
      GeoSteps.validateRingWithSteps (.arr pts) fi ri r =
        .ok (GeoSteps.addError (GeoSteps.addStep (GeoSteps.addStep r
            (s!"Feature {fi} ring array") true (s!"Feature {fi}: Ring is an array of positions"))
            (s!"Feature {fi} ring points") false (s!"Feature {fi}: Ring must have at least 4 points"))
          (s!"Feature {fi}: Ring must have at least 4 points"))) ∧
    (∀ (pts : List JVal) (fi ri : ℕ) (r r' : ValidationResult), pts.length < 4 →
      GeoPlain.validateRing (.arr pts) fi ri r = .ok r' →
      r'.isValid = false ∧
      ∀ m ∈ r'.errors, m ∈ r.errors ∨
        m = s!"Feature {fi}: Ring must be closed (first/last points identical)" ∨
        m = s!"Feature {fi}: Ring must have at least 4 points") := by
  constructor
  · exact stepsShortRing_spec
  · intro pts fi ri r r' hlen h
    unfold GeoPlain.validateRing at h
    obtain ⟨p0, hp0, h1⟩ := except_bind_ok h
    obtain ⟨lenv, hl, h2⟩ := except_bind_ok h1
    have hlv : (JVal.num (QJ.int pts.length)) = lenv := Except.ok.inj hl
    obtain rfl := hlv
    obtain ⟨plast, hpl, h3⟩ := except_bind_ok h2
    obtain ⟨closed, hcl, h4⟩ := except_bind_ok h3
    have hlt : jsLtB (toNum (.num (QJ.int pts.length))) (some (QJ.int 4)) = true := by
      show (QJ.int (pts.length : ℤ)).ltB (QJ.int 4) = true
      rw [QJ.ltB_iff, QJ.int_toQ, QJ.int_toQ]
      exact_mod_cast hlen
    rw [hlt] at h4
    rw [if_pos rfl] at h4
    obtain rfl := (Except.ok.inj h4).symm
    constructor
    · rfl
    · intro m hm
      rcases List.mem_append.mp hm with hm1 | hm2
      · by_cases hc : (!closed) = true
        · rw [if_pos hc] at hm1
          rcases List.mem_append.mp hm1 with hma | hmb
          · exact Or.inl hma
          · exact Or.inr (Or.inl (List.mem_singleton.mp hmb))
        · rw [if_neg hc] at hm1
          exact Or.inl hm1
      · exact Or.inr (Or.inr (List.mem_singleton.mp hm2))

theorem C6_short_ring_amended_witness :
    GeoSteps.validateRingWithSteps (.arr [pos2 0 0, pos2 1 1]) 0 0 GeoSteps.emptyResults =
      .ok (GeoSteps.addError (GeoSteps.addStep (GeoSteps.addStep GeoSteps.emptyResults
          ("Feature 0 ring array") true ("Feature 0: Ring is an array of positions"))
          ("Feature 0 ring points") false ("Feature 0: Ring must have at least 4 points"))
        ("Feature 0: Ring must have at least 4 points")) ∧
    ((false : Bool) = false ∧
      ∀ m ∈ ["Feature 0: Ring must be closed (first/last points identical)",
             "Feature 0: Ring must have at least 4 points"], m ∈ ([] : List String) ∨
        m = "Feature 0: Ring must be closed (first/last points identical)" ∨
        m = "Feature 0: Ring must have at least 4 points") := by
  constructor
  · exact C6_short_ring_amended.1 [pos2 0 0, pos2 1 1] 0 0 GeoSteps.emptyResults (by decide)
  · have h2 := C6_short_ring_amended.2 [pos2 0 0, pos2 1 1] 0 0 GeoPlain.emptyResults
      ⟨false, ["Feature 0: Ring must be closed (first/last points identical)",
               "Feature 0: Ring must have at least 4 points"]⟩ (by decide) rfl
    exact h2

/-- C6 (counterexample): the empty ring reaches the plain engine's ring
rule (a Polygon with coordinates `[[]]`) and, contrary to the claim that
every such ring yields a returned result with `isValid = false`, the
plain `validateRing` throws a `TypeError`: its closure check reads
`ring[0].length` before the minimum-size gate, and `ring[0]` is
`undefined`. -/
theorem C6_counterexample :
    GeoPlain.validateRing (.arr []) 0 0 GeoPlain.emptyResults =
      .error (.typeError "Cannot read properties of undefined (reading length)") := by
  exact rfl

theorem den_one_iff_mod (q : QJ) :
    (q.toQ * 1000000).den = 1 ↔ (q.n * 1000000) % q.d = 0 := by
  have hd0 : ((q.d : ℤ) : ℚ) ≠ 0 := by exact_mod_cast ne_of_gt q.hd
  have hx : q.toQ * 1000000 = ((q.n * 1000000 : ℤ) : ℚ) / ((q.d : ℤ) : ℚ) := by
    rw [QJ.toQ]
    push_cast
    ring
  rw [hx]
  constructor
  · intro h1
    have hnum := (Rat.den_eq_one_iff _).mp h1
    have h3 : ((q.n * 1000000 : ℤ) : ℚ)
        = ((((q.n * 1000000 : ℤ) : ℚ) / ((q.d : ℤ) : ℚ)).num : ℚ) * ((q.d : ℤ) : ℚ) :=
      (div_eq_iff hd0).mp hnum.symm
    have hint : q.n * 1000000
        = (((q.n * 1000000 : ℤ) : ℚ) / ((q.d : ℤ) : ℚ)).num * q.d := by exact_mod_cast h3
    exact Int.emod_eq_zero_of_dvd ⟨_, by rw [hint, Int.mul_comm]⟩
  · intro h2
    obtain ⟨k, hk⟩ := Int.dvd_of_emod_eq_zero h2
    rw [hk]
    push_cast
    rw [mul_comm ((q.d : ℤ) : ℚ) (k : ℚ), mul_div_assoc, div_self hd0, mul_one]
    exact Rat.den_intCast k

theorem hasEP_positional (q : QJ) (h : q.d.toNat ≤ q.n.natAbs * 1000000 ∨ q.n = 0) :
    GeoPlain.hasExcessivePrecision (.num q) =
      pure (!((q.n * 1000000) % q.d == 0)) := by
  unfold GeoPlain.hasExcessivePrecision
  rcases h with h | h
  · by_cases h0 : q.n.natAbs = 0
    · have hn : q.n = 0 := Int.natAbs_eq_zero.mp h0
      simp [h0, hn]
    · simp [h0, h]
  · have h0 : q.n.natAbs = 0 := by simp [h]
    simp [h0, h]

theorem plainCoord_precision (lon lat : QJ) (fi ri pi : ℕ)
    (h1 : -180 ≤ lon.toQ) (h2 : lon.toQ ≤ 180) (h3 : -90 ≤ lat.toQ) (h4 : lat.toQ ≤ 90)
    (hp1 : lon.d.toNat ≤ lon.n.natAbs * 1000000 ∨ lon.n = 0)
    (hp2 : lat.d.toNat ≤ lat.n.natAbs * 1000000 ∨ lat.n = 0) :
    GeoPlain.validateCoordinate (.arr [.num lon, .num lat]) fi ri pi GeoPlain.emptyResults =
      .ok (if (lon.n * 1000000) % lon.d = 0 ∧ (lat.n * 1000000) % lat.d = 0 then ⟨true, []⟩
        else ⟨false, [s!"Feature {fi} Point {pi}: Excessive coordinate precision"]⟩) := by
  have ha : lon.ltB (QJ.int (-180)) = false := by
    apply Bool.eq_false_iff.mpr
    intro hb
    rw [QJ.ltB_iff, QJ.int_toQ] at hb
    push_cast at hb
    linarith
  have hb' : (QJ.int 180).ltB lon = false := by
    apply Bool.eq_false_iff.mpr
    intro hb
    rw [QJ.ltB_iff, QJ.int_toQ] at hb
    push_cast at hb
    linarith
  have hc' : lat.ltB (QJ.int (-90)) = false := by
    apply Bool.eq_false_iff.mpr
    intro hb
    rw [QJ.ltB_iff, QJ.int_toQ] at hb
    push_cast at hb
    linarith
  have hd' : (QJ.int 90).ltB lat = false := by
    apply Bool.eq_false_iff.mpr
    intro hb
    rw [QJ.ltB_iff, QJ.int_toQ] at hb
    push_cast at hb
    linarith
  unfold GeoPlain.validateCoordinate
  by_cases hlon0 : (lon.n * 1000000) % lon.d = 0 <;>
    by_cases hlat0 : (lat.n * 1000000) % lat.d = 0 <;>
      simp [List.getD_cons_zero, List.getD_cons_succ, ha, hb', hc', hd', Bind.bind, Except.bind,
        pure, Except.pure, hlon0, hlat0, GeoPlain.addError, GeoPlain.emptyResults,
        hasEP_positional lon hp1, hasEP_positional lat hp2]

theorem stepsCoord_noPrecision (lon lat : QJ) (fi ri pi : ℕ) (r : ValidationResultWithSteps)
    (h1 : -180 ≤ lon.toQ) (h2 : lon.toQ ≤ 180) (h3 : -90 ≤ lat.toQ) (h4 : lat.toQ ≤ 90) :
    GeoSteps.validateCoordinateWithSteps (.arr [.num lon, .num lat]) fi ri pi r =
      GeoSteps.addStep (GeoSteps.addStep (GeoSteps.addStep r
        (s!"Feature {fi} Point {pi} format") true
        (s!"Feature {fi} Point {pi}: Coordinate format is valid"))
        (s!"Feature {fi} Point {pi} longitude") true
        (s!"Feature {fi} Point {pi}: Longitude is valid"))
        (s!"Feature {fi} Point {pi} latitude") true
        (s!"Feature {fi} Point {pi}: Latitude is valid") := by
  have ha : lon.ltB (QJ.int (-180)) = false := by
    apply Bool.eq_false_iff.mpr
    intro hb
    rw [QJ.ltB_iff, QJ.int_toQ] at hb
    push_cast at hb
    linarith
  have hb' : (QJ.int 180).ltB lon = false := by
    apply Bool.eq_false_iff.mpr
    intro hb
    rw [QJ.ltB_iff, QJ.int_toQ] at hb
    push_cast at hb
    linarith
  have hc' : lat.ltB (QJ.int (-90)) = false := by
    apply Bool.eq_false_iff.mpr
    intro hb
    rw [QJ.ltB_iff, QJ.int_toQ] at hb
    push_cast at hb
    linarith
  have hd' : (QJ.int 90).ltB lat = false := by
    apply Bool.eq_false_iff.mpr
    intro hb
    rw [QJ.ltB_iff, QJ.int_toQ] at hb
    push_cast at hb
    linarith
  unfold GeoSteps.validateCoordinateWithSteps
  simp [List.getD_cons_zero, List.getD_cons_succ, ha, hb', hc', hd']

/-- C9 (amended): the plain engine\x27s precision rule inspects the string
`num.toString()`, so it records an excessive-coordinate-precision
violation for a position exactly when the longitude or latitude is
rendered positionally (magnitude at least `1e-6`, or zero) with more
than six fractional decimal digits (equivalently, multiplying by 10⁶
does not yield an integer — the first conjunct bridges the divisibility
test to the denominator of the rational value); magnitudes below `1e-6`
render exponentially and, with a short mantissa such as `1e-7`, contain
no decimal point and escape the check entirely.  The diagnostics engine
performs no precision check at all (an in-range two-number position
always yields three passing steps there); consequently the document
`doc9`, identical to a fully valid one except for one coordinate with
seven fractional digits, is judged invalid by `validateGeoJSON` and
valid by `validateGeoJSONWithSteps`. -/
theorem C9_precision_divergence_amended :
    (∀ q : QJ, ((q.toQ * 1000000).den = 1 ↔ (q.n * 1000000) % q.d = 0)) ∧
    (∀ (lon lat : QJ) (fi ri pi : ℕ),
      -180 ≤ lon.toQ → lon.toQ ≤ 180 → -90 ≤ lat.toQ → lat.toQ ≤ 90 →
      (lon.d.toNat ≤ lon.n.natAbs * 1000000 ∨ lon.n = 0) →
      (lat.d.toNat ≤ lat.n.natAbs * 1000000 ∨ lat.n = 0) →
      GeoPlain.validateCoordinate (.arr [.num lon, .num lat]) fi ri pi GeoPlain.emptyResults =
        .ok (if (lon.n * 1000000) % lon.d = 0 ∧ (lat.n * 1000000) % lat.d = 0 then ⟨true, []⟩
          else ⟨false, [s!"Feature {fi} Point {pi}: Excessive coordinate precision"]⟩)) ∧
    (∀ (lon lat : QJ) (fi ri pi : ℕ) (r : ValidationResultWithSteps),
      -180 ≤ lon.toQ → lon.toQ ≤ 180 → -90 ≤ lat.toQ → lat.toQ ≤ 90 →
      GeoSteps.validateCoordinateWithSteps (.arr [.num lon, .num lat]) fi ri pi r =
        GeoSteps.addStep (GeoSteps.addStep (GeoSteps.addStep r
          (s!"Feature {fi} Point {pi} format") true
          (s!"Feature {fi} Point {pi}: Coordinate format is valid"))
          (s!"Feature {fi} Point {pi} longitude") true
          (s!"Feature {fi} Point {pi}: Longitude is valid"))
          (s!"Feature {fi} Point {pi} latitude") true
          (s!"Feature {fi} Point {pi}: Latitude is valid")) ∧
    GeoPlain.validateCoordinate (.arr [.num (QJ.dec 1 7), nm 0]) 0 0 0 GeoPlain.emptyResults =
      .ok ⟨true, []⟩ ∧
    GeoPlain.validateGeoJSON doc9 =
      .ok ⟨false, ["Feature 0 Point 2: Excessive coordinate precision"]⟩ ∧
    ((GeoSteps.validateGeoJSONWithSteps doc9).map (fun r => (r.isValid, r.errors))
      = .ok (true, [])) := by
  refine ⟨den_one_iff_mod, ?_, ?_, rfl, rfl, rfl⟩
  · intro lon lat fi ri pi hh1 hh2 hh3 hh4 hp1 hp2
    exact plainCoord_precision lon lat fi ri pi hh1 hh2 hh3 hh4 hp1 hp2
  · intro lon lat fi ri pi r hh1 hh2 hh3 hh4
    exact stepsCoord_noPrecision lon lat fi ri pi r hh1 hh2 hh3 hh4

/-- Witness for C9 at the concrete position `[0, 0.1234567]`, whose
latitude is rendered positionally with seven fractional digits. -/
theorem C9_precision_divergence_amended_witness :
    GeoPlain.validateCoordinate (.arr [.num (QJ.int 0), .num (QJ.dec 1234567 7)]) 0 0 0
        GeoPlain.emptyResults =
      .ok (if ((QJ.int 0).n * 1000000) % (QJ.int 0).d = 0 ∧
          ((QJ.dec 1234567 7).n * 1000000) % (QJ.dec 1234567 7).d = 0 then ⟨true, []⟩
        else ⟨false, ["Feature 0 Point 0: Excessive coordinate precision"]⟩) :=
  C9_precision_divergence_amended.2.1 (QJ.int 0) (QJ.dec 1234567 7) 0 0 0
    (by norm_num [QJ.toQ, QJ.int]) (by norm_num [QJ.toQ, QJ.int])
    (by norm_num [QJ.toQ, QJ.dec]) (by norm_num [QJ.toQ, QJ.dec])
    (by decide) (by decide)

/-- Counterexample to C9 as stated: the longitude `1e-7` has seven
fractional decimal digits (multiplying by 10⁶ leaves no integer), yet
the plain engine records no precision violation for the in-range
position `[1e-7, 0]` — JavaScript renders the value as the dot-free
exponential string `"1e-7"`. -/
theorem C9_counterexample :
    ((QJ.dec 1 7).n * 1000000) % (QJ.dec 1 7).d ≠ 0 ∧
    GeoPlain.validateCoordinate (.arr [.num (QJ.dec 1 7), nm 0]) 0 0 0
        GeoPlain.emptyResults = .ok ⟨true, []⟩ :=
  ⟨by decide, rfl⟩

theorem validateAllPlots_guard (geojson : JVal) :
    GeoSteps.validateAllPlotsWithSteps geojson =
      (match rootFeatures geojson with
       | none => .ok []
       | some fs => GeoSteps.plotsLoop fs 0) := by
  cases geojson with
  | null => rfl
  | undef => rfl
  | bool b => cases b <;> rfl
  | num q =>
      show (if (!truthy (JVal.num q) || true) = true then (pure [] : Except JErr _) else _) = _
      rw [Bool.or_true, if_pos rfl]
      unfold rootFeatures
      rw [show (typeofStr (JVal.num q) == "object") = false from rfl, Bool.and_false,
        if_neg (by simp)]
      rfl
  | str s =>
      show (if (!truthy (JVal.str s) || true) = true then (pure [] : Except JErr _) else _) = _
      rw [Bool.or_true, if_pos rfl]
      unfold rootFeatures
      rw [show (typeofStr (JVal.str s) == "object") = false from rfl, Bool.and_false,
        if_neg (by simp)]
      rfl
  | arr xs => rfl
  | obj fields =>
      unfold GeoSteps.validateAllPlotsWithSteps rootFeatures
      rw [show getProp (JVal.obj fields) "type" = pure (optGet (JVal.obj fields) "type")
        from rfl]
      simp only [pure_bind]
      rw [show getProp (JVal.obj fields) "features"
          = pure (optGet (JVal.obj fields) "features") from rfl]
      simp only [pure_bind, truthy, typeofStr, Bool.true_and, beq_self_eq_true, reduceIte]
      by_cases hfc :
          jsEq (optGet (JVal.obj fields) "type") (JVal.str ("FeatureCollection")) = true
      · simp only [hfc, Bool.not_true, Bool.false_eq_true, if_false, reduceIte]
        cases optGet (JVal.obj fields) "features" <;> rfl
      · have hf : jsEq (optGet (JVal.obj fields) "type")
            (JVal.str ("FeatureCollection")) = false := by
          revert hfc
          cases jsEq (optGet (JVal.obj fields) "type") (JVal.str ("FeatureCollection")) <;> simp
        simp only [hf, Bool.not_false, Bool.false_eq_true, if_false, if_true, reduceIte]
        split <;> rfl

theorem plotsLoop_spec (fs : List JVal) (idx : ℕ) (l : List PerPlotValidationResult)
    (h : GeoSteps.plotsLoop fs idx = .ok l) :
    l.length = fs.length ∧
    ∀ k f, fs.get? k = some f →
      ∃ e, GeoSteps.perPlot f (idx + k) = .ok e ∧ l.get? k = some e := by
  induction fs generalizing idx l with
  | nil =>
      obtain rfl := Except.ok.inj h
      exact ⟨rfl, fun k f hk => by simp at hk⟩
  | cons f0 rest ih =>
      obtain ⟨p, hp, h2⟩ := except_bind_ok h
      obtain ⟨ps, hps, h3⟩ := except_bind_ok h2
      obtain rfl := Except.ok.inj h3
      obtain ⟨hlen, hpt⟩ := ih (idx + 1) ps hps
      refine ⟨by simp [hlen], ?_⟩
      intro k f hk
      cases k with
      | zero =>
          obtain rfl := Option.some.inj hk
          exact ⟨p, by simpa using hp, rfl⟩
      | succ k =>
          obtain ⟨e, he, hle⟩ := hpt k f hk
          refine ⟨e, ?_, hle⟩
          have harith : idx + (k + 1) = idx + 1 + k := by omega
          rw [harith]
          exact he

/-- C5: `validateAllPlotsWithSteps` returns an empty list for every
non-conforming root document, and on a conforming root document that
returns normally it produces exactly one `PerPlotValidationResult` per
feature, the k-th being `perPlot f k` — a function of the k-th
feature value AND its index k (not of the feature value alone, nor of
any other feature). -/
theorem C5_per_feature_results (doc : JVal) (l : List PerPlotValidationResult)
    (h : GeoSteps.validateAllPlotsWithSteps doc = .ok l) :
    (rootFeatures doc = none → l = []) ∧
    ∀ fs, rootFeatures doc = some fs →
      l.length = fs.length ∧
      ∀ k f, fs.get? k = some f →
        ∃ e, GeoSteps.perPlot f k = .ok e ∧ l.get? k = some e := by
  rw [validateAllPlots_guard] at h
  cases hr : rootFeatures doc with
  | none =>
      rw [hr] at h
      obtain rfl := Except.ok.inj h
      exact ⟨fun _ => rfl, fun fs hfs => Option.noConfusion hfs⟩
  | some fs0 =>
      rw [hr] at h
      refine ⟨fun hn => Option.noConfusion hn, fun fs hfs => ?_⟩
      obtain rfl := Option.some.inj hfs
      obtain ⟨hlen, hpt⟩ := plotsLoop_spec fs0 0 l h
      refine ⟨hlen, fun k f hk => ?_⟩
      obtain ⟨e, he, hle⟩ := hpt k f hk
      exact ⟨e, by simpa using he, hle⟩

/-- Witness for C5 at the concrete one-feature document `docA`, whose
evaluated output is the explicit list `plotA`. -/
theorem C5_per_feature_results_witness :
    (rootFeatures docA = none → plotA = []) ∧
    ∀ fs, rootFeatures docA = some fs →
      plotA.length = fs.length ∧
      ∀ k f, fs.get? k = some f →
        ∃ e, GeoSteps.perPlot f k = .ok e ∧ plotA.get? k = some e :=
  C5_per_feature_results docA plotA rfl

/-- Counterexample to C5 as stated: the same feature value `featBad`
produces different `errors` (and `steps`) at index 0 and at index 1 —
the per-feature result is not a function of the feature value alone. -/
theorem C5_counterexample :
    GeoSteps.perPlot featBad 0 =
      .ok ⟨.str ("Feature 0"), .str (""), false,
        ["Feature 0: \x27properties\x27 must be an object or null"],
        [⟨"Feature 0 type", true, "Feature 0 type is \x27Feature\x27"⟩,
         ⟨"Feature 0 properties", false,
          "Feature 0: \x27properties\x27 must be an object or null"⟩]⟩ ∧
    GeoSteps.perPlot featBad 1 =
      .ok ⟨.str ("Feature 1"), .str (""), false,
        ["Feature 1: \x27properties\x27 must be an object or null"],
        [⟨"Feature 1 type", true, "Feature 1 type is \x27Feature\x27"⟩,
         ⟨"Feature 1 properties", false,
          "Feature 1: \x27properties\x27 must be an object or null"⟩]⟩ ∧
    (["Feature 0: \x27properties\x27 must be an object or null"] : List String) ≠
      ["Feature 1: \x27properties\x27 must be an object or null"] :=
  ⟨rfl, rfl, by decide⟩

theorem mem_siPairs {n i j : ℕ} :
    (i, j) ∈ siPairs n ↔ i + 2 ≤ j ∧ j < n - 1 ∧ ¬(i = 0 ∧ j = n - 2) := by
  simp only [siPairs, List.mem_filter, List.mem_flatMap, List.mem_map, List.mem_filter,
    List.mem_range, Prod.mk.injEq, Bool.not_eq_true', Bool.and_eq_false_iff,
    beq_eq_false_iff_ne, ne_eq, decide_eq_true_eq]
  constructor
  · rintro ⟨⟨a, ha, b, ⟨hb, hab⟩, rfl, rfl⟩, hseam⟩
    refine ⟨hab, hb, ?_⟩
    rintro ⟨rfl, rfl⟩
    rcases hseam with h | h <;> simp at h
  · rintro ⟨hab, hb, hseam⟩
    refine ⟨⟨i, by omega, j, ⟨hb, hab⟩, rfl, rfl⟩, ?_⟩
    by_cases hi : i = 0
    · right
      subst hi
      intro hj
      exact hseam ⟨rfl, by simpa using hj⟩
    · left
      simpa using hi

theorem getD_reverse (rl : List (QJ × QJ)) (k : ℕ) (h : k < rl.length) :
    rl.reverse.getD k origin2 = rl.getD (rl.length - 1 - k) origin2 := by
  rw [List.getD_eq_getElem?_getD, List.getD_eq_getElem?_getD,
    List.getElem?_reverse (by simpa using h)]

theorem segmentsIntersect_posJ (a b c d : QJ × QJ) :
    segmentsIntersect (posJ a) (posJ b) (posJ c) (posJ d) = .ok (segIntB a b c d) := rfl

theorem siScan_eq_any (rl : List (QJ × QJ)) (ps : List (ℕ × ℕ))
    (h : ∀ p ∈ ps, p.1 + 1 < rl.length ∧ p.2 + 1 < rl.length) :
    siScan (rl.map posJ) ps = .ok (ps.any (segIntAt rl)) := by
  induction ps with
  | nil => rfl
  | cons p rest ih =>
      obtain ⟨h1, h2⟩ := h p (List.mem_cons_self p rest)
      obtain ⟨i, j⟩ := p
      simp only [siScan]
      rw [getD_map_JVal posJ rl i origin2 (by omega),
        getD_map_JVal posJ rl (i+1) origin2 (by simpa using h1),
        getD_map_JVal posJ rl j origin2 (by omega),
        getD_map_JVal posJ rl (j+1) origin2 (by simpa using h2),
        segmentsIntersect_posJ,
        show segIntB (rl.getD i origin2) (rl.getD (i+1) origin2) (rl.getD j origin2)
          (rl.getD (j+1) origin2) = segIntAt rl (i, j) from rfl]
      cases hit : segIntAt rl (i, j) with
      | true =>
          simp only [List.any_cons, hit, Bool.true_or]
          rfl
      | false =>
          simp only [List.any_cons, hit, Bool.false_or]
          show siScan (rl.map posJ) rest = _
          exact ih (fun q hq => h q (List.mem_cons_of_mem _ hq))

theorem crossQJ_toQ (a b c : QJ × QJ) :
    (crossQJ a b c).toQ = crossQ (toQp a) (toQp b) (toQp c) := by
  simp only [crossQJ, crossQ, toQp, QJ.sub_toQ, QJ.mul_toQ]

theorem ccwB_eq_decide (a b c : QJ × QJ) :
    ccwB a b c = decide (0 < crossQ (toQp a) (toQp b) (toQp c)) := by
  apply Bool.eq_iff_iff.mpr
  rw [decide_eq_true_iff]
  unfold ccwB
  rw [QJ.ltB_iff, QJ.mul_toQ, QJ.mul_toQ, QJ.sub_toQ, QJ.sub_toQ, QJ.sub_toQ, QJ.sub_toQ]
  unfold crossQ toQp
  constructor <;> intro hlt <;> nlinarith [hlt]

theorem genPos_cross_ne (a b c : QJ × QJ)
    (h : ((crossQJ a b c).eqB (QJ.int 0)) = false) :
    crossQ (toQp a) (toQp b) (toQp c) ≠ 0 := by
  intro h0
  rw [← crossQJ_toQ] at h0
  have : (crossQJ a b c).eqB (QJ.int 0) = true := by
    rw [QJ.eqB_iff, QJ.int_toQ, h0]
    norm_num
  rw [h] at this
  exact Bool.noConfusion this

theorem decide_pos_neg {x : ℚ} (hx : x ≠ 0) : decide (0 < -x) = !decide (0 < x) := by
  rcases lt_trichotomy x 0 with h | h | h
  · simp [h, not_lt.mpr (le_of_lt h), neg_pos.mpr h]
  · exact absurd h hx
  · simp [h, not_lt.mpr (neg_nonpos.mpr (le_of_lt h))]

theorem segIntB_rev (p1 p2 p3 p4 : QJ × QJ)
    (ha : ((crossQJ p1 p3 p4).eqB (QJ.int 0)) = false)
    (hb : ((crossQJ p2 p3 p4).eqB (QJ.int 0)) = false)
    (hc : ((crossQJ p1 p2 p3).eqB (QJ.int 0)) = false)
    (hd : ((crossQJ p1 p2 p4).eqB (QJ.int 0)) = false) :
    segIntB p4 p3 p2 p1 = segIntB p1 p2 p3 p4 := by
  have ha' := genPos_cross_ne _ _ _ ha
  have hb' := genPos_cross_ne _ _ _ hb
  have hc' := genPos_cross_ne _ _ _ hc
  have hd' := genPos_cross_ne _ _ _ hd
  unfold segIntB
  rw [ccwB_eq_decide p4 p2 p1, ccwB_eq_decide p3 p2 p1, ccwB_eq_decide p4 p3 p2,
    ccwB_eq_decide p4 p3 p1, ccwB_eq_decide p1 p3 p4, ccwB_eq_decide p2 p3 p4,
    ccwB_eq_decide p1 p2 p3, ccwB_eq_decide p1 p2 p4]
  rw [show crossQ (toQp p4) (toQp p2) (toQp p1) = -crossQ (toQp p1) (toQp p2) (toQp p4) from
      by unfold crossQ; ring,
    show crossQ (toQp p3) (toQp p2) (toQp p1) = -crossQ (toQp p1) (toQp p2) (toQp p3) from
      by unfold crossQ; ring,
    show crossQ (toQp p4) (toQp p3) (toQp p2) = -crossQ (toQp p2) (toQp p3) (toQp p4) from
      by unfold crossQ; ring,
    show crossQ (toQp p4) (toQp p3) (toQp p1) = -crossQ (toQp p1) (toQp p3) (toQp p4) from
      by unfold crossQ; ring,
    decide_pos_neg hd', decide_pos_neg hc', decide_pos_neg hb', decide_pos_neg ha']
  cases decide (0 < crossQ (toQp p1) (toQp p3) (toQp p4)) <;>
    cases decide (0 < crossQ (toQp p2) (toQp p3) (toQp p4)) <;>
    cases decide (0 < crossQ (toQp p1) (toQp p2) (toQp p3)) <;>
    cases decide (0 < crossQ (toQp p1) (toQp p2) (toQp p4)) <;> rfl

theorem segIntAt_reverse_pair (rl : List (QJ × QJ)) (i j : ℕ)
    (hab : i + 2 ≤ j) (hb : j < rl.length - 1)
    (hgp : genPosAt rl (rl.length - 2 - j, rl.length - 2 - i) = true) :
    segIntAt rl.reverse (i, j) = segIntAt rl (rl.length - 2 - j, rl.length - 2 - i) := by
  have hn : 4 ≤ rl.length := by omega
  unfold segIntAt
  rw [getD_reverse rl i (by omega), getD_reverse rl (i+1) (by omega),
    getD_reverse rl j (by omega), getD_reverse rl (j+1) (by omega)]
  simp only []
  rw [show rl.length - 1 - (i+1) = rl.length - 2 - i from by omega,
    show rl.length - 1 - (j+1) = rl.length - 2 - j from by omega,
    show rl.length - 2 - j + 1 = rl.length - 1 - j from by omega,
    show rl.length - 2 - i + 1 = rl.length - 1 - i from by omega]
  unfold genPosAt at hgp
  simp only [] at hgp
  rw [show rl.length - 2 - j + 1 = rl.length - 1 - j from by omega,
    show rl.length - 2 - i + 1 = rl.length - 1 - i from by omega,
    Bool.and_eq_true, Bool.and_eq_true, Bool.and_eq_true, Bool.not_eq_true',
    Bool.not_eq_true', Bool.not_eq_true', Bool.not_eq_true'] at hgp
  obtain ⟨⟨⟨ha, hbb⟩, hcc⟩, hdd⟩ := hgp
  exact segIntB_rev _ _ _ _ ha hbb hcc hdd

theorem siAny_reverse (rl : List (QJ × QJ)) (hgp : genPosB rl = true) :
    siAny rl.reverse = siAny rl := by
  rw [genPosB, List.all_eq_true] at hgp
  apply Bool.eq_iff_iff.mpr
  rw [siAny, siAny, List.any_eq_true, List.any_eq_true, List.length_reverse]
  constructor
  · rintro ⟨⟨i, j⟩, hmem, hseg⟩
    obtain ⟨hab, hb, hseam⟩ := mem_siPairs.mp hmem
    have hmem2 : (rl.length - 2 - j, rl.length - 2 - i) ∈ siPairs rl.length :=
      mem_siPairs.mpr (by omega)
    refine ⟨(rl.length - 2 - j, rl.length - 2 - i), hmem2, ?_⟩
    rw [← segIntAt_reverse_pair rl i j hab hb (hgp _ hmem2)]
    exact hseg
  · rintro ⟨⟨i, j⟩, hmem, hseg⟩
    obtain ⟨hab, hb, hseam⟩ := mem_siPairs.mp hmem
    have h1 : rl.length - 2 - (rl.length - 2 - i) = i := by omega
    have h2 : rl.length - 2 - (rl.length - 2 - j) = j := by omega
    have hmem2 : (rl.length - 2 - j, rl.length - 2 - i) ∈ siPairs rl.length :=
      mem_siPairs.mpr (by omega)
    refine ⟨(rl.length - 2 - j, rl.length - 2 - i), hmem2, ?_⟩
    rw [segIntAt_reverse_pair rl (rl.length - 2 - j) (rl.length - 2 - i) (by omega) (by omega)]
    · rw [h2, h1]
      exact hseg
    · rw [h2, h1]
      exact hgp _ hmem

theorem siScan_siPairs (m : List (QJ × QJ)) :
    siScan (m.map posJ) (siPairs m.length) = .ok (siAny m) := by
  rw [siAny]
  refine siScan_eq_any m _ (fun p hp => ?_)
  obtain ⟨i, j⟩ := p
  obtain ⟨hab, hb, hseam⟩ := mem_siPairs.mp hp
  exact ⟨by omega, by omega⟩

/-- C8 (amended): for every numeric ring in general position (no tested
orientation triple is collinear), the self-intersection verdict — and the
entire output of both engines' self-intersection rule — is unchanged when
the ring's sequence of positions is reversed.  Without the general-position
hypothesis the invariance fails (see the counterexample). -/
theorem C8_reversal_invariance (rl : List (QJ × QJ)) (hgp : genPosB rl = true)
    (fi : ℕ) (r : ValidationResultWithSteps) (r2 : ValidationResult) :
    GeoSteps.checkSelfIntersectionsWithSteps ((rl.reverse).map posJ) fi r =
      GeoSteps.checkSelfIntersectionsWithSteps (rl.map posJ) fi r ∧
    GeoPlain.checkSelfIntersections ((rl.reverse).map posJ) fi r2 =
      GeoPlain.checkSelfIntersections (rl.map posJ) fi r2 := by
  constructor
  · unfold GeoSteps.checkSelfIntersectionsWithSteps
    simp only [List.length_map]
    rw [siScan_siPairs rl.reverse, siScan_siPairs rl, siAny_reverse rl hgp]
  · unfold GeoPlain.checkSelfIntersections
    simp only [List.length_map]
    rw [siScan_siPairs rl.reverse, siScan_siPairs rl, siAny_reverse rl hgp]

/-- Witness for C8 at the bowtie ring, which is in general position and
self-intersecting in both traversal directions. -/
theorem C8_reversal_invariance_witness :
    genPosB ringBow = true ∧
    (GeoSteps.checkSelfIntersectionsWithSteps ((ringBow.reverse).map posJ) 0
        GeoSteps.emptyResults =
      GeoSteps.checkSelfIntersectionsWithSteps (ringBow.map posJ) 0 GeoSteps.emptyResults ∧
    GeoPlain.checkSelfIntersections ((ringBow.reverse).map posJ) 0 GeoPlain.emptyResults =
      GeoPlain.checkSelfIntersections (ringBow.map posJ) 0 GeoPlain.emptyResults) :=
  ⟨rfl, C8_reversal_invariance ringBow rfl 0 GeoSteps.emptyResults GeoPlain.emptyResults⟩

/-- Counterexample to C8 as stated: on the collinear T-configuration ring
`ringC8`, both engines report no self-intersection on the original
traversal but report one on the reversed traversal. -/
theorem C8_counterexample :
    GeoPlain.checkSelfIntersections (ringC8.map posJ) 0 GeoPlain.emptyResults =
      .ok ⟨true, []⟩ ∧
    GeoPlain.checkSelfIntersections ((ringC8.reverse).map posJ) 0 GeoPlain.emptyResults =
      .ok ⟨false, ["Feature 0: Self-intersection detected"]⟩ ∧
    GeoSteps.checkSelfIntersectionsWithSteps (ringC8.map posJ) 0 GeoSteps.emptyResults =
      .ok ⟨true, [],
        [⟨"Feature 0 self-intersection", true, "Feature 0: No self-intersections"⟩]⟩ ∧
    GeoSteps.checkSelfIntersectionsWithSteps ((ringC8.reverse).map posJ) 0
        GeoSteps.emptyResults =
      .ok ⟨false, ["Feature 0: Self-intersection detected"],
        [⟨"Feature 0 self-intersection", false, "Feature 0: Self-intersection detected"⟩]⟩ :=
  ⟨rfl, rfl, rfl, rfl⟩
